import Mathlib

/-!
Verification development for the artifex generation backend.

This file gives a shallow embedding, in Lean, of the asynchronous image and
video generation workflow of the repository: the Freepik provider service
(submit, poll loop, Cloudinary upload fallback), the image generation
orchestrator (context validation, record creation, quota consumption, retry,
output processing, failure translation), and the HTTP controller layer
(context construction with its quota default, history persistence, response
mapping).  External I/O (HTTP calls, database writes) is modelled by explicit
environment records carrying the outcome of each call, and by explicit state
passing of an in-memory database value.  Two modules imported by the
orchestrator, utils/quota (QuotaUtils.calculateGenerationCost) and
utils/imageGenerationErrors (the AppError class hierarchy and
RetryHandler.withRetry), are not part of the source tree; the definitions
standing in for them are marked as modelled from the spec.
-/

namespace Artifex

/-- Image quality setting of a generation request. -/
inductive Quality where
  | standard
  | hd
  | ultra
deriving DecidableEq

/-- Subscription tier of the requesting account. -/
inductive Tier where
  | free
  | plus
  | pro
deriving DecidableEq

/-- Printable tier name, used where the source interpolates the tier string. -/
def tierName : Tier → String
  | Tier.free => "free"
  | Tier.plus => "plus"
  | Tier.pro => "pro"

/-- The generation request body (context.request in the source).  The
aspect-ratio string of the source is called aspect here. -/
structure GenRequest where
  prompt : String
  quality : Quality
  batchSize : Option Nat
  aspect : String
  style : Option String
  negativePrompt : Option String
  seed : Option Nat
deriving DecidableEq

/-- Quota information carried on the request context
(context.quotaInfo in the source). -/
structure QuotaInfo where
  remaining : Nat
deriving DecidableEq

/-- Generation context handed from the controller to the orchestrator. -/
structure GenerationContext where
  userId : String
  subscriptionTier : Tier
  quotaInfo : QuotaInfo
  subscriptionIsActive : Bool
  request : GenRequest
deriving DecidableEq

/-- A persisted user document (the fields of the mongoose User model that the
workflow reads and writes). -/
structure UserDoc where
  monthlyUsage : Nat
  isActive : Bool
  subscriptionTier : Tier
deriving DecidableEq

/-- Modelled from the spec: the error classes of the missing
utils/imageGenerationErrors module (AppError and its subclasses
ValidationError, SubscriptionError, QuotaExceededError), plus a
constructor for plain non-AppError exceptions.  The catch blocks of the
orchestrator branch on whether the thrown value is an AppError and read its
errorCode and message; providerUnavailable is the outcome the spec assigns
to a submit whose retries are exhausted. -/
inductive OrchError where
  | validationError (message : String)
  | subscriptionError (message : String)
  | quotaExceededError (message : String) (remaining : Nat)
  | appError (message : String) (statusCode : Nat) (errorCode : String)
  | providerUnavailable (message : String)
  | plainError (message : String)
deriving DecidableEq

/-- Whether a thrown value is an instance of the AppError class. -/
def OrchError.isAppError : OrchError → Bool
  | OrchError.plainError _ => false
  | _ => true

/-- Modelled from the spec: the errorCode field of each AppError subclass of
the missing utils/imageGenerationErrors module. -/
def OrchError.errCode : OrchError → String
  | OrchError.validationError _ => "VALIDATION_ERROR"
  | OrchError.subscriptionError _ => "SUBSCRIPTION_ERROR"
  | OrchError.quotaExceededError _ _ => "QUOTA_EXCEEDED"
  | OrchError.appError _ _ c => c
  | OrchError.providerUnavailable _ => "PROVIDER_UNAVAILABLE"
  | OrchError.plainError _ => "GENERATION_FAILED"

/-- The message carried by a thrown value. -/
def OrchError.errMessage : OrchError → String
  | OrchError.validationError m => m
  | OrchError.subscriptionError m => m
  | OrchError.quotaExceededError m _ => m
  | OrchError.appError m _ _ => m
  | OrchError.providerUnavailable m => m
  | OrchError.plainError m => m

/-- Modelled from the spec: the retryability classification of the missing
RetryHandler.  Per the spec, transient failures (network errors without an
HTTP status, 5xx responses, upstream rate limiting) are retried; 4xx
responses (validation, authentication) are never retried. -/
def OrchError.isTransient : OrchError → Bool
  | OrchError.appError _ s _ => 500 ≤ s || s == 429
  | OrchError.plainError _ => true
  | _ => false

/-- Lifecycle status of a persisted generation record
(ImageGenerationStatus in the source). -/
inductive RecStatus where
  | pending
  | processing
  | completed
  | failed
deriving DecidableEq

/-- One output image record as it flows through the service, the
orchestrator and the history writes.  Optional fields are absent until the
step that sets them runs. -/
structure ImageData where
  id : Option String
  url : Option String
  secureUrl : Option String
  publicId : Option String
  cloudinaryUrl : Option String
  thumbnailUrl : Option String
  width : Nat
  height : Nat
  format : String
  bytes : Nat
  originalUrl : Option String
  hasBase64Data : Bool
  processingError : Option String
  tier : Option String
deriving DecidableEq

/-- A persisted generation record (the ImageGeneration mongoose document,
restricted to the fields the workflow reads and writes). -/
structure GenRecord where
  userId : String
  genType : String
  status : RecStatus
  prompt : String
  outputImages : List ImageData
  credits : Nat
  errorMessage : Option String
deriving DecidableEq

/-- The database state threaded through a run: user documents keyed by clerk
id, and the list of persisted generation records. -/
structure DB where
  users : List (String × UserDoc)
  records : List GenRecord
deriving DecidableEq

/-- UserModel.findByClerkId. -/
def findUser (db : DB) (uid : String) : Option UserDoc :=
  (db.users.find? (fun p => p.fst == uid)).map Prod.snd

/-- user.save after mutating the document found for uid. -/
def setUser (db : DB) (uid : String) (u : UserDoc) : DB :=
  { db with users := db.users.map (fun p => if p.fst == uid then (uid, u) else p) }

/-- generationRecord.save for a record living at index idx of the store. -/
def saveRecordAt (db : DB) (idx : Nat) (g : GenRecord) : DB :=
  { db with records := db.records.set idx g }

/-!
Freepik provider service (FreepikImageService).
-/

namespace FreepikImageService

/-- The fields returned by a successful cloudinaryService.uploadImage call. -/
structure CloudOk where
  publicId : String
  secureUrl : String
  format : String
  width : Nat
  height : Nat
  bytes : Nat
deriving DecidableEq

/-- Outcome of one Cloudinary persistence attempt for one asset: either the
upload succeeded with the given fields, or it failed (download failure,
unconfigured or unsuccessful upload, or a thrown error). -/
inductive CloudUpload where
  | ok (r : CloudOk)
  | failed
deriving DecidableEq

/-- The object returned by FreepikImageService.uploadToCloudinary. -/
structure CloudResult where
  url : String
  secureUrl : String
  publicId : String
  format : String
  width : Nat
  height : Nat
  bytes : Nat
deriving DecidableEq

/-- FreepikImageService.uploadToCloudinary: on success, returns the
Cloudinary fields; on any failure it falls back to the direct provider URL,
copying the ephemeral imageUrl into both url and secureUrl, fabricating a
publicId from the clock, and reporting fixed dimensions and zero bytes.  No
field of the fallback marks the asset as unpersisted.  nowMs models
Date.now(). -/
def uploadToCloudinary (imageUrl : String) (nowMs : Nat) : CloudUpload → CloudResult
  | CloudUpload.ok r =>
      { url := r.secureUrl, secureUrl := r.secureUrl, publicId := r.publicId,
        format := r.format, width := r.width, height := r.height, bytes := r.bytes }
  | CloudUpload.failed =>
      { url := imageUrl, secureUrl := imageUrl, publicId := "freepik_" ++ toString nowMs,
        format := "jpeg", width := 1024, height := 1024, bytes := 0 }

/-- One entry of the generated array of a completed poll response: either a
plain URL string, or an object whose URL field may be absent. -/
inductive GenEntry where
  | strUrl (s : String)
  | objUrl (u : Option String)
deriving DecidableEq

/-- The URL extracted from a generated-array entry (firstImage when it is a
string, otherwise firstImage.url or its fallbacks). -/
def GenEntry.extractUrl : GenEntry → Option String
  | GenEntry.strUrl s => some s
  | GenEntry.objUrl u => u

/-- Shape of one image-poll HTTP response, after the normalization
result.data or result performed by the source. -/
inductive PollHttp where
  | httpError (status : Nat) (message : String)
  | completedGenerated (entries : List GenEntry) (imageUrl : Option String)
  | failedStatus (err : Option String)
  | running
deriving DecidableEq

/-- The value pollGenerationResult resolves with on a completed response. -/
structure PolledResult where
  imageUrl : Option String
deriving DecidableEq

/-- Fixed wait before each poll request, milliseconds (the source sleeps
2000 ms at the top of every loop iteration). -/
def pollIntervalMs : Nat := 2000

/-- Default maxAttempts of pollGenerationResult. -/
def pollDefaultMaxAttempts : Nat := 30

/-- Observable outcome of a poll loop: the resolved or thrown value, the
number of poll HTTP requests issued, and the total time slept. -/
structure PollRun where
  result : Except OrchError PolledResult
  calls : Nat
  sleepMs : Nat

/-- The body of one iteration of pollGenerationResult: none means the status
is non-terminal and the loop continues; some is the resolved or thrown
value. -/
def pollOnce : PollHttp → Option (Except OrchError PolledResult)
  | PollHttp.httpError s m =>
      some (Except.error (OrchError.appError ("Freepik API polling error: " ++ m) s "FREEPIK_POLL_ERROR"))
  | PollHttp.completedGenerated entries imageUrl =>
      match entries with
      | e :: _ => some (Except.ok { imageUrl := e.extractUrl })
      | [] =>
          match imageUrl with
          | some u => some (Except.ok { imageUrl := some u })
          | none =>
              some (Except.error (OrchError.appError
                "Generation completed but no images were produced" 500 "NO_IMAGES_GENERATED"))
  | PollHttp.failedStatus err =>
      some (Except.error (OrchError.appError
        ("Image generation failed: " ++ err.getD "Unknown error") 500 "FREEPIK_GENERATION_FAILED"))
  | PollHttp.running => none

/-- The loop of pollGenerationResult, indexed by the current attempt number
and the remaining attempts; polls gives the response of each poll request. -/
def pollLoop (polls : Nat → PollHttp) : Nat → Nat → PollRun
  | _, 0 =>
      { result := Except.error (OrchError.appError
          "Image generation timed out after 60 seconds" 408 "FREEPIK_TIMEOUT"),
        calls := 0, sleepMs := 0 }
  | i, Nat.succ rem =>
      match pollOnce (polls i) with
      | some r => { result := r, calls := 1, sleepMs := pollIntervalMs }
      | none =>
          let tail := pollLoop polls (i + 1) rem
          { result := tail.result, calls := tail.calls + 1, sleepMs := tail.sleepMs + pollIntervalMs }

/-- FreepikImageService.pollGenerationResult. -/
def pollGenerationResult (polls : Nat → PollHttp) (maxAttempts : Nat) : PollRun :=
  pollLoop polls 0 maxAttempts

/-- Shape of one video-poll HTTP response.  On a completed response the
source searches several fields for the video URL; videoUrl is the first one
found, if any. -/
inductive VPollHttp where
  | httpError (status : Nat) (message : String)
  | completed (videoUrl : Option String)
  | failedStatus (err : Option String)
  | running
deriving DecidableEq

/-- The value pollVideoGenerationResult resolves with. -/
structure VideoPolled where
  videoUrl : String
deriving DecidableEq

/-- Observable outcome of the video poll loop. -/
structure VPollRun where
  result : Except OrchError VideoPolled
  calls : Nat
  sleepMs : Nat

/-- The body of one iteration of pollVideoGenerationResult.  The multi-line
diagnostic text the source builds when a failed response carries no error
details is abbreviated to its first words. -/
def vPollOnce : VPollHttp → Option (Except OrchError VideoPolled)
  | VPollHttp.httpError s m =>
      some (Except.error (OrchError.appError
        ("Freepik video API polling error: " ++ m) s "FREEPIK_VIDEO_POLL_ERROR"))
  | VPollHttp.completed videoUrl =>
      match videoUrl with
      | some u => some (Except.ok { videoUrl := u })
      | none =>
          some (Except.error (OrchError.appError
            "Video generation completed but no video URL was returned" 500 "NO_VIDEO_URL"))
  | VPollHttp.failedStatus err =>
      some (Except.error (OrchError.appError
        ("Video generation failed: " ++ err.getD "Common reasons: credits, image requirements, prompt, permissions")
        500 "FREEPIK_VIDEO_GENERATION_FAILED"))
  | VPollHttp.running => none

/-- The loop of pollVideoGenerationResult. -/
def vPollLoop (polls : Nat → VPollHttp) : Nat → Nat → VPollRun
  | _, 0 =>
      { result := Except.error (OrchError.appError
          "Video generation timed out after 2 minutes" 408 "FREEPIK_VIDEO_TIMEOUT"),
        calls := 0, sleepMs := 0 }
  | i, Nat.succ rem =>
      match vPollOnce (polls i) with
      | some r => { result := r, calls := 1, sleepMs := pollIntervalMs }
      | none =>
          let tail := vPollLoop polls (i + 1) rem
          { result := tail.result, calls := tail.calls + 1, sleepMs := tail.sleepMs + pollIntervalMs }

/-- FreepikImageService.pollVideoGenerationResult. -/
def pollVideoGenerationResult (polls : Nat → VPollHttp) (maxAttempts : Nat) : VPollRun :=
  vPollLoop polls 0 maxAttempts

/-- Attempt count the image-to-video path passes to the video poll loop
(pollVideoGenerationResult taskId 60). -/
def videoPollMaxAttempts : Nat := 60

/-- Shape of the submit HTTP response of the Mystic endpoint, after the
normalization data.data or data. -/
inductive SubmitHttp where
  | httpError (status : Nat) (message : String)
  | immediateUrl (imageUrl : String)
  | taskOnly (taskId : String)
  | invalidShape
deriving DecidableEq

/-- Environment of one FreepikImageService.textToImage invocation: the
submit response, the response of each poll request, the Cloudinary outcome
for the produced asset, and the clock value used by the fallback publicId. -/
structure ServiceEnv where
  submit : SubmitHttp
  polls : Nat → PollHttp
  upload : CloudUpload
  nowMs : Nat

/-- The response object of a successful service call
(GeminiGenerationResponse restricted to the fields the orchestrator reads). -/
structure GenResponse where
  images : List ImageData
deriving DecidableEq

/-- Observable outcome of one service call. -/
structure ServiceRun where
  result : Except OrchError GenResponse
  pollCalls : Nat
  pollSleepMs : Nat

/-- The tail of FreepikImageService.textToImage once an image URL is in
hand: upload to Cloudinary (with the direct-URL fallback) and assemble the
imageData record of the response. -/
def finishWithUrl (env : ServiceEnv) (imageUrl : String) : GenResponse :=
  let cr := uploadToCloudinary imageUrl env.nowMs env.upload
  { images := [{
      id := some cr.publicId,
      url := some cr.secureUrl,
      secureUrl := some cr.secureUrl,
      publicId := some cr.publicId,
      cloudinaryUrl := some cr.url,
      thumbnailUrl := none,
      width := cr.width,
      height := cr.height,
      format := cr.format,
      bytes := cr.bytes,
      originalUrl := some imageUrl,
      hasBase64Data := false,
      processingError := none,
      tier := none }] }

/-- FreepikImageService.textToImage: submit, then poll when only a task id
came back, then upload; any AppError thrown along the way is rethrown by the
catch via handleFreepikError, unchanged. -/
def textToImage (env : ServiceEnv) : ServiceRun :=
  match env.submit with
  | SubmitHttp.httpError s m =>
      { result := Except.error (OrchError.appError ("Freepik API error: " ++ m) s "FREEPIK_API_ERROR"),
        pollCalls := 0, pollSleepMs := 0 }
  | SubmitHttp.invalidShape =>
      { result := Except.error (OrchError.appError
          "Invalid response from Freepik API - no image URL or task ID provided" 500 "INVALID_FREEPIK_RESPONSE"),
        pollCalls := 0, pollSleepMs := 0 }
  | SubmitHttp.immediateUrl u =>
      { result := Except.ok (finishWithUrl env u), pollCalls := 0, pollSleepMs := 0 }
  | SubmitHttp.taskOnly _ =>
      let pr := pollGenerationResult env.polls pollDefaultMaxAttempts
      match pr.result with
      | Except.error e =>
          { result := Except.error e, pollCalls := pr.calls, pollSleepMs := pr.sleepMs }
      | Except.ok polled =>
          match polled.imageUrl with
          | none =>
              { result := Except.error (OrchError.appError
                  "Generation completed but no image URL was returned" 500 "NO_IMAGE_URL"),
                pollCalls := pr.calls, pollSleepMs := pr.sleepMs }
          | some u =>
              { result := Except.ok (finishWithUrl env u), pollCalls := pr.calls, pollSleepMs := pr.sleepMs }

/-- FreepikImageService.imageToImage: not natively supported; delegates to
textToImage after appending the reference-image suffix to the prompt.  The
prompt transformation does not change the modelled outcome, which depends
only on the environment. -/
def imageToImage (env : ServiceEnv) : ServiceRun :=
  textToImage env

end FreepikImageService

/-!
Image generation orchestrator (ImageGenerationOrchestrator).
-/

namespace Orchestrator

open FreepikImageService

/-- The capability table of getModelCapabilities. -/
structure ModelCapabilities where
  availableQualities : List Quality
  maxBatchSize : Nat
  maxResolution : String
deriving DecidableEq

/-- ImageGenerationOrchestrator.getModelCapabilities. -/
def getModelCapabilities : Tier → ModelCapabilities
  | Tier.free =>
      { availableQualities := [Quality.standard], maxBatchSize := 1, maxResolution := "1k" }
  | Tier.plus =>
      { availableQualities := [Quality.standard, Quality.hd], maxBatchSize := 3, maxResolution := "2k" }
  | Tier.pro =>
      { availableQualities := [Quality.standard, Quality.hd, Quality.ultra], maxBatchSize := 5, maxResolution := "2k" }

/-- Outcome of one Cloudinary step inside processGeneratedImages for one
image: success, a failed or skipped upload (upload not successful, local
file missing, or no upload method for the image), or a thrown error caught
by the per-image catch. -/
inductive UploadStep where
  | ok (r : CloudOk)
  | failedOrSkipped
  | threw (message : String)
deriving DecidableEq

/-- Substring test on the underlying character lists (String.includes of
the source). -/
def strContains (hay needle : String) : Bool :=
  (List.range (hay.data.length + 1)).any (fun i => needle.data.isPrefixOf (hay.data.drop i))

/-- Whether a URL points at the local server (image.url.includes of
localhost in the source). -/
def urlHasLocalhost : Option String → Bool
  | some s => strContains s "localhost"
  | none => false

/-- cloudinaryService.generateThumbnailUrl publicId 300 300, modelled as an
a URL string built from its arguments and otherwise uninterpreted by the claims. -/
def generateThumbnailUrl (publicId : String) (w h : Nat) : String :=
  "cloudinary_thumb_" ++ toString w ++ "x" ++ toString h ++ "_" ++ publicId

/-- One iteration of the per-image loop of processGeneratedImages: a thrown
error is caught and recorded on the image as processingError; otherwise the
image is kept, with the Cloudinary fields filled in only when an upload was
actually attempted (base64 data or a localhost URL) and succeeded. -/
def processOne (tier : String) (step : UploadStep) (img : ImageData) : ImageData :=
  match step with
  | UploadStep.threw m => { img with processingError := some m }
  | UploadStep.failedOrSkipped => { img with tier := some tier }
  | UploadStep.ok r =>
      if img.hasBase64Data || urlHasLocalhost img.url then
        { img with tier := some tier, publicId := some r.publicId,
                   secureUrl := some r.secureUrl, cloudinaryUrl := some r.secureUrl,
                   bytes := r.bytes, url := some r.secureUrl,
                   thumbnailUrl := some (generateThumbnailUrl r.publicId 300 300) }
      else
        { img with tier := some tier }

/-- ImageGenerationOrchestrator.processGeneratedImages: every input image
produces exactly one output image; failures are recorded per image, never
dropped. -/
def processGeneratedImages (uploads : Nat → UploadStep) (tier : String)
    (images : List ImageData) : List ImageData :=
  images.mapIdx (fun i img => processOne tier (uploads i) img)

/-- Environment of one orchestrator run: the per-retry-attempt service
environments, the cost QuotaUtils.calculateGenerationCost computes for this
request (the utils/quota module is not part of the source tree, so the cost
is an input of the model), the Cloudinary outcomes of processGeneratedImages
per image index, and the per-index validity verdicts of
imageProcessingService.validateImage. -/
structure OrchEnv where
  freepik : Nat → ServiceEnv
  calcCost : Nat
  uploads : Nat → UploadStep
  imageValid : Nat → Bool

/-- ImageGenerationOrchestrator.validateGenerationContext.  The blank-prompt
test prompt.trim().length of the source is rendered as all-whitespace on the
underlying character list. -/
def validateGenerationContext (ctx : GenerationContext) (db : DB) : Except OrchError Unit :=
  match findUser db ctx.userId with
  | none => Except.error (OrchError.validationError "User not found or inactive")
  | some u =>
      if !u.isActive then
        Except.error (OrchError.validationError "User not found or inactive")
      else if !ctx.subscriptionIsActive && ctx.subscriptionTier ≠ Tier.free then
        Except.error (OrchError.subscriptionError "Subscription is not active")
      else if ctx.request.prompt.data.all (fun c => c.isWhitespace) then
        Except.error (OrchError.validationError "Prompt is required and cannot be empty")
      else if ctx.request.prompt.data.length > 2000 then
        Except.error (OrchError.validationError "Prompt exceeds maximum length of 2000 characters")
      else if !((getModelCapabilities ctx.subscriptionTier).availableQualities.contains ctx.request.quality) then
        Except.error (OrchError.validationError "Quality not available for tier")
      else
        match ctx.request.batchSize with
        | some b =>
            if b > (getModelCapabilities ctx.subscriptionTier).maxBatchSize then
              Except.error (OrchError.validationError "Batch size exceeds limit for tier")
            else Except.ok ()
        | none => Except.ok ()

/-- ImageGenerationOrchestrator.createGenerationRecord: a fresh record in
status pending with empty outputs and the computed cost as its credits.  The
record is appended to the store by the caller. -/
def createGenerationRecord (env : OrchEnv) (ctx : GenerationContext) (genType : String) : GenRecord :=
  { userId := ctx.userId, genType := genType, status := RecStatus.pending,
    prompt := ctx.request.prompt, outputImages := [], credits := env.calcCost,
    errorMessage := none }

/-- The object validateAndConsumeQuota resolves with. -/
structure QuotaResult where
  success : Bool
  message : Option String
  remaining : Option Nat
deriving DecidableEq

/-- ImageGenerationOrchestrator.validateAndConsumeQuota: the sufficiency
check reads only context.quotaInfo.remaining against the credits of the
record; on success it increments the monthlyUsage of the persisted user by
creditsNeeded and saves the record in status processing.  idx is the
position of the record in the store. -/
def validateAndConsumeQuota (ctx : GenerationContext) (g : GenRecord) (idx : Nat) (db : DB) :
    QuotaResult × DB × GenRecord :=
  let creditsNeeded := g.credits
  if ctx.quotaInfo.remaining < creditsNeeded then
    ({ success := false,
       message := some "Insufficient quota",
       remaining := some ctx.quotaInfo.remaining }, db, g)
  else
    match findUser db ctx.userId with
    | none => ({ success := false, message := some "User not found", remaining := none }, db, g)
    | some u =>
        let db2 := setUser db ctx.userId { u with monthlyUsage := u.monthlyUsage + creditsNeeded }
        let g2 := { g with status := RecStatus.processing }
        ({ success := true, message := none, remaining := none }, saveRecordAt db2 idx g2, g2)

/-- Total retry attempts the orchestrator passes to RetryHandler.withRetry. -/
def maxRetryAttempts : Nat := 3

/-- Base delay in milliseconds the orchestrator passes to
RetryHandler.withRetry. -/
def baseRetryDelayMs : Nat := 1000

/-- Observable outcome of executeWithRetry: the final resolved or thrown
value, the number of attempts actually executed, the poll requests they
issued, and the total inter-attempt delay waited. -/
structure RetryRun where
  result : Except OrchError GenResponse
  attempts : Nat
  pollCalls : Nat
  retryDelayMs : Nat

/-- Modelled from the spec: RetryHandler.withRetry of the missing
utils/imageGenerationErrors module.  Up to the given number of total
attempts; only transient failures are retried, with the base delay between
attempts; a non-retryable failure is rethrown at once; exhausting the
attempts on transient failures yields the ProviderUnavailable outcome. -/
def withRetry (att : Nat → ServiceRun) (delayMs : Nat) : Nat → Nat → RetryRun
  | _, 0 =>
      { result := Except.error (OrchError.plainError "retry attempts exhausted"),
        attempts := 0, pollCalls := 0, retryDelayMs := 0 }
  | i, Nat.succ rem =>
      let a := att i
      match a.result with
      | Except.ok v =>
          { result := Except.ok v, attempts := 1, pollCalls := a.pollCalls, retryDelayMs := 0 }
      | Except.error e =>
          if e.isTransient then
            if rem = 0 then
              { result := Except.error (OrchError.providerUnavailable e.errMessage),
                attempts := 1, pollCalls := a.pollCalls, retryDelayMs := 0 }
            else
              let tail := withRetry att delayMs (i + 1) rem
              { result := tail.result, attempts := tail.attempts + 1,
                pollCalls := a.pollCalls + tail.pollCalls,
                retryDelayMs := delayMs + tail.retryDelayMs }
          else
            { result := Except.error e, attempts := 1, pollCalls := a.pollCalls, retryDelayMs := 0 }

/-- ImageGenerationOrchestrator.executeWithRetry: RetryHandler.withRetry
with 3 total attempts and a 1000 ms base delay. -/
def executeWithRetry (att : Nat → ServiceRun) : RetryRun :=
  withRetry att baseRetryDelayMs 0 maxRetryAttempts

/-- The error object of a failure result (code and message as assembled by
the catch blocks of the orchestrator). -/
structure GenErrorInfo where
  code : String
  message : String
deriving DecidableEq

/-- The result an orchestrator entry point returns to the controller. -/
structure GenerationResult where
  success : Bool
  images : List ImageData
  errorInfo : Option GenErrorInfo
deriving DecidableEq

/-- Observable outcome of one orchestrator run: the returned result, the
final database, the final state of the working record when one was created,
the successive saved states of that record, and run statistics (service
submit attempts, poll requests, retry delay, and whether the quota step
consumed usage). -/
structure RunOutcome where
  result : GenerationResult
  db : DB
  record : Option GenRecord
  recordStates : List GenRecord
  submitCalls : Nat
  pollCalls : Nat
  retryDelayMs : Nat
  quotaConsumed : Bool

/-- The failure result assembled by a catch block: errorCode of the thrown
AppError, or GENERATION_FAILED for a plain error. -/
def catchResult (e : OrchError) : GenerationResult :=
  { success := false, images := [],
    errorInfo := some { code := if e.isAppError then e.errCode else "GENERATION_FAILED",
                        message := e.errMessage } }

/-- A run that fails before the working record exists: the catch block skips
the record update. -/
def runFailureNoRecord (e : OrchError) (db : DB) : RunOutcome :=
  { result := catchResult e, db := db, record := none, recordStates := [],
    submitCalls := 0, pollCalls := 0, retryDelayMs := 0, quotaConsumed := false }

/-- A run that fails after the working record exists: the catch block saves
it in status failed with the error message. -/
def runFailureWithRecord (e : OrchError) (db : DB) (g : GenRecord) (idx : Nat)
    (states : List GenRecord) (submits polls delay : Nat) (consumed : Bool) : RunOutcome :=
  let g2 := { g with status := RecStatus.failed, errorMessage := some e.errMessage }
  { result := catchResult e, db := saveRecordAt db idx g2, record := some g2,
    recordStates := states ++ [g2], submitCalls := submits, pollCalls := polls,
    retryDelayMs := delay, quotaConsumed := consumed }

/-- Steps 4 to 7 shared by the image entry points: call the provider service
through executeWithRetry, process the produced images, save the record as
completed with the outputs, and assemble the success result; any thrown
error lands in the catch block. -/
def stageSubmit (env : OrchEnv) (ctx : GenerationContext) (att : Nat → ServiceRun)
    (db : DB) (g : GenRecord) (idx : Nat) (states : List GenRecord) : RunOutcome :=
  let rr := executeWithRetry att
  match rr.result with
  | Except.error e =>
      runFailureWithRecord e db g idx states rr.attempts rr.pollCalls rr.retryDelayMs true
  | Except.ok resp =>
      let processed := processGeneratedImages env.uploads (tierName ctx.subscriptionTier) resp.images
      let g2 := { g with status := RecStatus.completed, outputImages := processed }
      { result := { success := true, images := processed, errorInfo := none },
        db := saveRecordAt db idx g2, record := some g2, recordStates := states ++ [g2],
        submitCalls := rr.attempts, pollCalls := rr.pollCalls,
        retryDelayMs := rr.retryDelayMs, quotaConsumed := true }

/-- Steps 3 onward shared by the image entry points: consume quota (throwing
QuotaExceededError into the catch when it reports failure), then submit.
quotaCtx is the context the quota step receives, which for multi-image
composition differs from ctx by its batchSize. -/
def stageQuota (env : OrchEnv) (ctx quotaCtx : GenerationContext) (att : Nat → ServiceRun)
    (db : DB) (g : GenRecord) (idx : Nat) : RunOutcome :=
  match validateAndConsumeQuota quotaCtx g idx db with
  | (qr, db2, g2) =>
      if qr.success then
        stageSubmit env ctx att db2 g2 idx [g, g2]
      else
        runFailureWithRecord
          (OrchError.quotaExceededError (qr.message.getD "Quota exceeded") (qr.remaining.getD 0))
          db2 g2 idx [g] 0 0 0 false

/-- ImageGenerationOrchestrator.generateTextToImage. -/
def generateTextToImage (env : OrchEnv) (ctx : GenerationContext) (db : DB) : RunOutcome :=
  match validateGenerationContext ctx db with
  | Except.error e => runFailureNoRecord e db
  | Except.ok _ =>
      let g := createGenerationRecord env ctx "text-to-image"
      let idx := db.records.length
      let db1 := { db with records := db.records ++ [g] }
      stageQuota env ctx ctx (fun i => FreepikImageService.textToImage (env.freepik i)) db1 g idx

/-- ImageGenerationOrchestrator.generateImageToImage: validates the input
image first, then follows the same pipeline with the image-to-image service
call. -/
def generateImageToImage (env : OrchEnv) (ctx : GenerationContext) (db : DB) : RunOutcome :=
  if !env.imageValid 0 then
    runFailureNoRecord (OrchError.validationError "Input image validation failed") db
  else
    match validateGenerationContext ctx db with
    | Except.error e => runFailureNoRecord e db
    | Except.ok _ =>
        let g := createGenerationRecord env ctx "image-to-image"
        let idx := db.records.length
        let db1 := { db with records := db.records ++ [g] }
        stageQuota env ctx ctx (fun i => FreepikImageService.imageToImage (env.freepik i)) db1 g idx

/-- ImageGenerationOrchestrator.generateMultiImageComposition: gated to paid
tiers, validates each of the n input images, then follows the same pipeline;
the quota step receives the context with batchSize set to the image count,
and the service call is text-to-image with the composition prompt. -/
def generateMultiImageComposition (env : OrchEnv) (ctx : GenerationContext) (n : Nat) (db : DB) :
    RunOutcome :=
  if ctx.subscriptionTier = Tier.free then
    runFailureNoRecord
      (OrchError.subscriptionError "Multi-image composition requires Plus or Pro subscription") db
  else if (List.range n).any (fun i => !env.imageValid i) then
    runFailureNoRecord (OrchError.validationError "Input image validation failed") db
  else
    match validateGenerationContext ctx db with
    | Except.error e => runFailureNoRecord e db
    | Except.ok _ =>
        let g := createGenerationRecord env ctx "multi-image"
        let idx := db.records.length
        let db1 := { db with records := db.records ++ [g] }
        let quotaCtx := { ctx with request := { ctx.request with batchSize := some n } }
        stageQuota env ctx quotaCtx (fun i => FreepikImageService.textToImage (env.freepik i)) db1 g idx

/-- ImageGenerationOrchestrator.refineImage: validates the input image, then
follows the same pipeline with the image-to-image service call and the
refinement prompt. -/
def refineImage (env : OrchEnv) (ctx : GenerationContext) (db : DB) : RunOutcome :=
  if !env.imageValid 0 then
    runFailureNoRecord (OrchError.validationError "Input image validation failed") db
  else
    match validateGenerationContext ctx db with
    | Except.error e => runFailureNoRecord e db
    | Except.ok _ =>
        let g := createGenerationRecord env ctx "refine"
        let idx := db.records.length
        let db1 := { db with records := db.records ++ [g] }
        stageQuota env ctx ctx (fun i => FreepikImageService.imageToImage (env.freepik i)) db1 g idx

/-- The object freepikService.imageToVideo resolves with, restricted to the
fields generateVideo reads. -/
structure VideoOutcome where
  videoUrl : Option String
  taskId : Option String
deriving DecidableEq

/-- The value generateVideo returns on success. -/
structure VideoSuccess where
  videoUrl : String
  taskId : Option String
deriving DecidableEq

/-- The parameters of generateVideo the model reads. -/
structure VideoParams where
  imageUrl : String
deriving DecidableEq

/-- ImageGenerationOrchestrator.generateVideo: unlike the image entry
points, its catch block rethrows: an AppError is rethrown unchanged and any
other error is wrapped in an AppError and rethrown, so failures propagate as
exceptions (the error side of the Except) past the orchestrator boundary. -/
def generateVideo (serviceResult : Except OrchError VideoOutcome) (p : VideoParams) :
    Except OrchError VideoSuccess :=
  let body : Except OrchError VideoSuccess :=
    if p.imageUrl = "" then
      Except.error (OrchError.appError "Invalid image URL provided" 400 "INVALID_IMAGE_URL")
    else
      match serviceResult with
      | Except.error e => Except.error e
      | Except.ok vr =>
          match vr.videoUrl with
          | none =>
              Except.error (OrchError.appError
                "Video URL not returned from generation service" 500 "NO_VIDEO_URL")
          | some u => Except.ok { videoUrl := u, taskId := vr.taskId }
  match body with
  | Except.ok v => Except.ok v
  | Except.error e =>
      Except.error
        (if e.isAppError then e
         else OrchError.appError ("Video generation failed: " ++ e.errMessage) 500 "VIDEO_GENERATION_ERROR")

end Orchestrator

/-!
HTTP controller (ImageGenerationController).
-/

namespace Controller

open Orchestrator

/-- The inbound request as the controller sees it: the authenticated user id
resolved from the session (absent when authentication failed), the parsed
body, and the quotaInfo attached by middleware when one ran. -/
structure CtrlReq where
  authUserId : Option String
  body : GenRequest
  quotaInfo : Option QuotaInfo
deriving DecidableEq

/-- The JSON response the controller sends, with its HTTP status.  code
models the stable code field the spec requires on failure bodies; the
controller of the source never sets one. -/
structure HttpResponse where
  status : Nat
  success : Bool
  message : Option String
  code : Option String
deriving DecidableEq

/-- ImageGenerationController.createContext: the quotaInfo of the request
when middleware populated one, otherwise a default of 10 remaining credits;
the subscription info is synthesized as active. -/
def createContext (uid : String) (tier : Tier) (req : GenRequest) (q : Option QuotaInfo) :
    GenerationContext :=
  { userId := uid, subscriptionTier := tier,
    quotaInfo := q.getD { remaining := 10 },
    subscriptionIsActive := true,
    request := req }

/-- ImageGenerationController.ensureUserExists: look up the user by clerk
id, creating a fresh free-tier document with zero usage when none exists. -/
def ensureUserExists (db : DB) (uid : String) : UserDoc × DB :=
  match findUser db uid with
  | some u => (u, db)
  | none =>
      let u : UserDoc := { monthlyUsage := 0, isActive := true, subscriptionTier := Tier.free }
      (u, { db with users := db.users ++ [(uid, u)] })

/-- ImageGenerationController.saveGenerationHistory: appends one record
built from the orchestrator result, completed with its images on success,
failed with the error message otherwise.  The per-image field remapping of
the source copies each image; only its length and the record status and
error matter here. -/
def saveGenerationHistory (uid : String) (genType : String) (prompt : String)
    (result : GenerationResult) (db : DB) : DB :=
  let g : GenRecord :=
    { userId := uid, genType := genType,
      status := if result.success then RecStatus.completed else RecStatus.failed,
      prompt := prompt,
      outputImages := if result.success then result.images else [],
      credits := 1,
      errorMessage := if result.success then none
                      else some ((result.errorInfo.map (fun e => e.message)).getD "") }
  { db with records := db.records ++ [g] }

/-- Observable outcome of one controller invocation. -/
structure CtrlRun where
  response : HttpResponse
  db : DB
  orchRecordCreated : Bool

/-- ImageGenerationController.textToImage: 401 without a resolved user id;
otherwise ensure the user exists, build the context (with the quota default
when no middleware ran), invoke the orchestrator, always write one history
record, and map the result to 200 on success or 400 with the error message
on failure — the failure body carries no code field, and the status does not
depend on the failure reason. -/
def textToImage (env : OrchEnv) (req : CtrlReq) (db : DB) : CtrlRun :=
  match req.authUserId with
  | none =>
      { response := { status := 401, success := false,
                      message := some "Authentication required - no user ID found", code := none },
        db := db, orchRecordCreated := false }
  | some uid =>
      let eu := ensureUserExists db uid
      let ctx := createContext uid eu.fst.subscriptionTier req.body req.quotaInfo
      let run := Orchestrator.generateTextToImage env ctx eu.snd
      let db2 := saveGenerationHistory uid "text-to-image" req.body.prompt run.result run.db
      { response :=
          if run.result.success then
            { status := 200, success := true, message := none, code := none }
          else
            { status := 400, success := false,
              message := some ((run.result.errorInfo.map (fun e => e.message)).getD
                "Image generation failed"),
              code := none },
        db := db2, orchRecordCreated := run.record.isSome }

/-- The video route handler of the routes layer (generateVideo in the video
controller file): missing fields map to 400; a thrown service error is
caught by the route itself and mapped to 500 regardless of its reason. -/
def videoRouteGenerateVideo (image prompt : Option String) (svc : Except String String) :
    HttpResponse :=
  match image with
  | none => { status := 400, success := false, message := some "Image is required", code := none }
  | some _ =>
      match prompt with
      | none => { status := 400, success := false, message := some "Prompt is required", code := none }
      | some _ =>
          match svc with
          | Except.ok _ => { status := 200, success := true, message := none, code := none }
          | Except.error m => { status := 500, success := false, message := some m, code := none }

end Controller

/-- The shape every image entry point result has: a success with no error
object, or a failure carrying one. -/
def resultShape (r : Orchestrator.GenerationResult) : Prop :=
  (r.success = true ∧ r.errorInfo = none) ∨ (r.success = false ∧ ∃ e, r.errorInfo = some e)

/-- The record invariant of the data model: completed exactly when outputs
are present, failed exactly when an error detail is recorded, and failed
records carry no outputs. -/
def recordInv (g : GenRecord) : Prop :=
  (g.status = RecStatus.completed ↔ g.outputImages ≠ [])
  ∧ (g.status = RecStatus.failed ↔ g.errorMessage ≠ none)
  ∧ (g.status = RecStatus.failed → g.outputImages = [])

/-!
Concrete fixtures used by witnesses and counterexamples.
-/

section Fixtures

open FreepikImageService Orchestrator Controller

/-- A free-tier user with no accumulated usage. -/
def wUser : UserDoc := { monthlyUsage := 0, isActive := true, subscriptionTier := Tier.free }

/-- A plain valid text-to-image request. -/
def wReq : GenRequest :=
  { prompt := "a red circle", quality := Quality.standard, batchSize := none,
    aspect := "1:1", style := none, negativePrompt := none, seed := none }

/-- A database holding exactly the one user and no records. -/
def wDB : DB := { users := [("u1", wUser)], records := [] }

/-- A context for that user with the given remaining quota. -/
def wCtx (r : Nat) : GenerationContext :=
  { userId := "u1", subscriptionTier := Tier.free, quotaInfo := { remaining := r },
    subscriptionIsActive := true, request := wReq }

/-- A successful Cloudinary upload outcome. -/
def wCloudOk : CloudOk :=
  { publicId := "pid1", secureUrl := "https://cdn.example/img1.png",
    format := "png", width := 1024, height := 1024, bytes := 10 }

/-- Service world: submission succeeds immediately and the upload works. -/
def seOk : ServiceEnv :=
  { submit := SubmitHttp.immediateUrl "https://img.freepik.com/a.png",
    polls := fun _ => PollHttp.running, upload := CloudUpload.ok wCloudOk, nowMs := 7 }

/-- Service world: every submission fails with a 500. -/
def seTransient : ServiceEnv :=
  { submit := SubmitHttp.httpError 500 "server error",
    polls := fun _ => PollHttp.running, upload := CloudUpload.ok wCloudOk, nowMs := 7 }

/-- Service world: submission returns a task id and every poll reports
still-running. -/
def seTimeout : ServiceEnv :=
  { submit := SubmitHttp.taskOnly "task1",
    polls := fun _ => PollHttp.running, upload := CloudUpload.ok wCloudOk, nowMs := 7 }

/-- Service world: submission succeeds immediately but the Cloudinary
upload fails. -/
def seUploadFail : ServiceEnv :=
  { submit := SubmitHttp.immediateUrl "https://img.freepik.com/a.png",
    polls := fun _ => PollHttp.running, upload := CloudUpload.failed, nowMs := 7 }

/-- An orchestrator environment where every retry attempt sees the same
service world, cost 1, and no orchestrator-level upload activity. -/
def mkEnv (se : ServiceEnv) : OrchEnv :=
  { freepik := fun _ => se, calcCost := 1,
    uploads := fun _ => UploadStep.failedOrSkipped, imageValid := fun _ => true }

/-- The pending working record a run for user u1 creates at cost 1. -/
def wPendingRecord : GenRecord :=
  { userId := "u1", genType := "text-to-image", status := RecStatus.pending,
    prompt := "a red circle", outputImages := [], credits := 1, errorMessage := none }

/-- An authenticated controller request for user u1 with no middleware
quota info. -/
def wCtrlReq : Controller.CtrlReq :=
  { authUserId := some "u1", body := wReq, quotaInfo := none }

/-- A database where user u1 has a large accumulated usage. -/
def wDBRich : DB :=
  { users := [("u1", { monthlyUsage := 999, isActive := true, subscriptionTier := Tier.free })],
    records := [] }

end Fixtures

/-!
Shared lemmas about the embedded workflow.
-/

section Lemmas

open FreepikImageService Orchestrator

/-- When every poll response is still-running, the image poll loop issues
exactly its remaining number of poll requests, sleeps the fixed interval
before each, and resolves with the timeout error. -/
theorem pollLoop_allRunning (polls : Nat → PollHttp) (h : ∀ i, polls i = PollHttp.running) :
    ∀ n i, pollLoop polls i n =
      { result := Except.error (OrchError.appError
          "Image generation timed out after 60 seconds" 408 "FREEPIK_TIMEOUT"),
        calls := n, sleepMs := n * pollIntervalMs } := by
  intro n
  induction n with
  | zero => intro i; simp [pollLoop]
  | succ m ih =>
      intro i
      simp [pollLoop, h i, pollOnce, ih (i + 1), Nat.succ_mul]

/-- When every poll response is still-running, the video poll loop issues
exactly its remaining number of poll requests and resolves with the video
timeout error. -/
theorem vPollLoop_allRunning (polls : Nat → VPollHttp) (h : ∀ i, polls i = VPollHttp.running) :
    ∀ n i, vPollLoop polls i n =
      { result := Except.error (OrchError.appError
          "Video generation timed out after 2 minutes" 408 "FREEPIK_VIDEO_TIMEOUT"),
        calls := n, sleepMs := n * pollIntervalMs } := by
  intro n
  induction n with
  | zero => intro i; simp [vPollLoop]
  | succ m ih =>
      intro i
      simp [vPollLoop, h i, vPollOnce, ih (i + 1), Nat.succ_mul]

/-- One retry step on a transient failure with attempts left: the loop
recurses, adding one attempt and one base delay. -/
theorem withRetry_step_transient (att : Nat → ServiceRun) (d i rem : Nat) (e : OrchError)
    (he : (att i).result = Except.error e) (ht : e.isTransient = true) (hrem : rem ≠ 0) :
    withRetry att d i (rem + 1) =
      { result := (withRetry att d (i + 1) rem).result,
        attempts := (withRetry att d (i + 1) rem).attempts + 1,
        pollCalls := (att i).pollCalls + (withRetry att d (i + 1) rem).pollCalls,
        retryDelayMs := d + (withRetry att d (i + 1) rem).retryDelayMs } := by
  conv_lhs => rw [withRetry]
  simp [he, ht, hrem]

/-- A retry step on a transient failure with no attempts left resolves with
the ProviderUnavailable outcome after that single attempt. -/
theorem withRetry_last_transient (att : Nat → ServiceRun) (d i : Nat) (e : OrchError)
    (he : (att i).result = Except.error e) (ht : e.isTransient = true) :
    withRetry att d i 1 =
      { result := Except.error (OrchError.providerUnavailable e.errMessage),
        attempts := 1, pollCalls := (att i).pollCalls, retryDelayMs := 0 } := by
  conv_lhs => rw [withRetry]
  simp [he, ht]

/-- A non-transient failure is rethrown after a single attempt. -/
theorem withRetry_fatal (att : Nat → ServiceRun) (d i rem : Nat) (e : OrchError)
    (he : (att i).result = Except.error e) (ht : e.isTransient = false) :
    withRetry att d i (rem + 1) =
      { result := Except.error e, attempts := 1,
        pollCalls := (att i).pollCalls, retryDelayMs := 0 } := by
  conv_lhs => rw [withRetry]
  simp [he, ht]

/-- A successful attempt resolves at once. -/
theorem withRetry_ok (att : Nat → ServiceRun) (d i rem : Nat) (v : GenResponse)
    (he : (att i).result = Except.ok v) :
    withRetry att d i (rem + 1) =
      { result := Except.ok v, attempts := 1,
        pollCalls := (att i).pollCalls, retryDelayMs := 0 } := by
  conv_lhs => rw [withRetry]
  simp [he]

/-- When every service attempt throws a transient error, the retry loop
executes exactly its attempt budget, waits the base delay between
consecutive attempts, and resolves with the ProviderUnavailable outcome. -/
theorem withRetry_allTransient (att : Nat → ServiceRun) (d : Nat)
    (h : ∀ i, ∃ e, (att i).result = Except.error e ∧ e.isTransient = true) :
    ∀ n i, (withRetry att d i (n + 1)).attempts = n + 1
      ∧ (∃ m, (withRetry att d i (n + 1)).result = Except.error (OrchError.providerUnavailable m))
      ∧ (withRetry att d i (n + 1)).retryDelayMs = n * d := by
  intro n
  induction n with
  | zero =>
      intro i
      obtain ⟨e, he, ht⟩ := h i
      rw [withRetry_last_transient att d i e he ht]
      exact ⟨rfl, ⟨e.errMessage, rfl⟩, by simp⟩
  | succ m ih =>
      intro i
      obtain ⟨e, he, ht⟩ := h i
      obtain ⟨ih1, ⟨w, ih2⟩, ih3⟩ := ih (i + 1)
      rw [withRetry_step_transient att d i (m + 1) e he ht (Nat.succ_ne_zero m)]
      refine ⟨by simp [ih1], ⟨w, by simp [ih2]⟩, by simp [ih3, Nat.succ_mul]; ring⟩

/-- Looking up a user ignores the record store. -/
theorem findUser_records (db : DB) (rs : List GenRecord) (uid : String) :
    findUser { db with records := rs } uid = findUser db uid := rfl

/-- Saving a record leaves the user documents unchanged. -/
theorem users_saveRecordAt (db : DB) (idx : Nat) (g : GenRecord) :
    (saveRecordAt db idx g).users = db.users := rfl

/-- The list component of user replacement. -/
theorem find_map_setUser (uid : String) (v : UserDoc) :
    ∀ l : List (String × UserDoc),
      (l.find? (fun p => p.fst == uid)).isSome = true →
      ((l.map (fun p => if p.fst == uid then (uid, v) else p)).find?
        (fun p => p.fst == uid)).map Prod.snd = some v := by
  intro l
  induction l with
  | nil => intro h; simp [List.find?] at h
  | cons hd t ih =>
      obtain ⟨k, w⟩ := hd
      intro h
      by_cases hk : (k == uid) = true
      · simp [List.find?, hk]
      · have hk' : (k == uid) = false := by simpa using hk
        simp only [List.find?, hk'] at h
        simp only [List.map_cons]
        rw [if_neg hk]
        simp only [List.find?, hk']
        exact ih h

/-- After setUser on a present user, lookup returns the new document. -/
theorem findUser_setUser (db : DB) (uid : String) (u v : UserDoc)
    (h : findUser db uid = some u) :
    findUser (setUser db uid v) uid = some v := by
  have hs : (db.users.find? (fun p => p.fst == uid)).isSome = true := by
    unfold findUser at h
    cases hf : db.users.find? (fun p => p.fst == uid) <;> simp [hf] at h ⊢
  exact find_map_setUser uid v db.users hs

/-- Replacing an absent user touches nothing. -/
theorem setUser_users_map (db : DB) (uid : String) (v : UserDoc) :
    (setUser db uid v).records = db.records := rfl

/-- The submit stage changes only the record store, never the users. -/
theorem stageSubmit_users (env : OrchEnv) (ctx : GenerationContext) (att : Nat → ServiceRun)
    (db : DB) (g : GenRecord) (idx : Nat) (states : List GenRecord) :
    (stageSubmit env ctx att db g idx states).db.users = db.users := by
  unfold stageSubmit
  cases h : (executeWithRetry att).result <;>
    simp [h, runFailureWithRecord, saveRecordAt]

/-- The submit stage preserves the number of stored records. -/
theorem stageSubmit_records_length (env : OrchEnv) (ctx : GenerationContext)
    (att : Nat → ServiceRun) (db : DB) (g : GenRecord) (idx : Nat) (states : List GenRecord) :
    (stageSubmit env ctx att db g idx states).db.records.length = db.records.length := by
  unfold stageSubmit
  cases h : (executeWithRetry att).result <;>
    simp [h, runFailureWithRecord, saveRecordAt]

/-- The submit stage when the retried service call fails: the error lands
in the catch block with the retry statistics attached. -/
theorem stageSubmit_error (env : OrchEnv) (ctx : GenerationContext) (att : Nat → ServiceRun)
    (db : DB) (g : GenRecord) (idx : Nat) (states : List GenRecord) (e : OrchError)
    (h : (executeWithRetry att).result = Except.error e) :
    stageSubmit env ctx att db g idx states =
      runFailureWithRecord e db g idx states (executeWithRetry att).attempts
        (executeWithRetry att).pollCalls (executeWithRetry att).retryDelayMs true := by
  unfold stageSubmit
  simp only [h]

/-- The submit stage when the retried service call succeeds: the processed
outputs are returned and saved on the completed record. -/
theorem stageSubmit_ok_result (env : OrchEnv) (ctx : GenerationContext) (att : Nat → ServiceRun)
    (db : DB) (g : GenRecord) (idx : Nat) (states : List GenRecord)
    (v : FreepikImageService.GenResponse)
    (h : (executeWithRetry att).result = Except.ok v) :
    (stageSubmit env ctx att db g idx states).result =
      { success := true,
        images := processGeneratedImages env.uploads (tierName ctx.subscriptionTier) v.images,
        errorInfo := none } := by
  unfold stageSubmit
  simp only [h]

/-- The submit stage always reports a working record. -/
theorem stageSubmit_record_isSome (env : OrchEnv) (ctx : GenerationContext)
    (att : Nat → ServiceRun) (db : DB) (g : GenRecord) (idx : Nat) (states : List GenRecord) :
    (stageSubmit env ctx att db g idx states).record.isSome = true := by
  unfold stageSubmit
  cases h : (executeWithRetry att).result <;>
    simp [h, runFailureWithRecord]

/-- The quota stage on an insufficient balance: the quota step reports
failure without touching the database, the thrown QuotaExceededError lands
in the catch block, and no service attempt runs. -/
theorem stageQuota_insufficient (env : OrchEnv) (ctx quotaCtx : GenerationContext)
    (att : Nat → ServiceRun) (db : DB) (g : GenRecord) (idx : Nat)
    (h : quotaCtx.quotaInfo.remaining < g.credits) :
    stageQuota env ctx quotaCtx att db g idx =
      runFailureWithRecord
        (OrchError.quotaExceededError "Insufficient quota" quotaCtx.quotaInfo.remaining)
        db g idx [g] 0 0 0 false := by
  unfold stageQuota validateAndConsumeQuota
  rw [if_pos h]
  rfl

/-- The quota stage with a sufficient balance and a present user: usage is
consumed, the record moves to processing, and the run continues with the
submit stage. -/
theorem stageQuota_consume (env : OrchEnv) (ctx quotaCtx : GenerationContext)
    (att : Nat → ServiceRun) (db : DB) (g : GenRecord) (idx : Nat) (u : UserDoc)
    (h : ¬ quotaCtx.quotaInfo.remaining < g.credits)
    (hu : findUser db quotaCtx.userId = some u) :
    stageQuota env ctx quotaCtx att db g idx =
      stageSubmit env ctx att
        (saveRecordAt (setUser db quotaCtx.userId { u with monthlyUsage := u.monthlyUsage + g.credits })
          idx { g with status := RecStatus.processing })
        { g with status := RecStatus.processing } idx
        [g, { g with status := RecStatus.processing }] := by
  unfold stageQuota validateAndConsumeQuota
  rw [if_neg h, hu]
  rfl

/-- A passing context validation reduces generateTextToImage to the quota
stage on the freshly appended pending record. -/
theorem generateTextToImage_validated (env : OrchEnv) (ctx : GenerationContext) (db : DB)
    (hval : validateGenerationContext ctx db = Except.ok ()) :
    generateTextToImage env ctx db =
      stageQuota env ctx ctx (fun i => FreepikImageService.textToImage (env.freepik i))
        { db with records := db.records ++ [createGenerationRecord env ctx "text-to-image"] }
        (createGenerationRecord env ctx "text-to-image") db.records.length := by
  unfold generateTextToImage
  rw [hval]

/-- User lookup depends only on the users component. -/
theorem findUser_congr_users (db db' : DB) (uid : String) (h : db.users = db'.users) :
    findUser db uid = findUser db' uid := by
  unfold findUser
  rw [h]

/-- The submit stage always reports the quota as consumed. -/
theorem stageSubmit_quotaConsumed (env : OrchEnv) (ctx : GenerationContext)
    (att : Nat → ServiceRun) (db : DB) (g : GenRecord) (idx : Nat) (states : List GenRecord) :
    (stageSubmit env ctx att db g idx states).quotaConsumed = true := by
  unfold stageSubmit
  cases h : (executeWithRetry att).result <;>
    simp [h, runFailureWithRecord]

/-- The quota stage when the user document is missing: the quota step
reports failure without consuming anything. -/
theorem stageQuota_userMissing (env : OrchEnv) (ctx quotaCtx : GenerationContext)
    (att : Nat → ServiceRun) (db : DB) (g : GenRecord) (idx : Nat)
    (h : ¬ quotaCtx.quotaInfo.remaining < g.credits)
    (hu : findUser db quotaCtx.userId = none) :
    stageQuota env ctx quotaCtx att db g idx =
      runFailureWithRecord (OrchError.quotaExceededError "User not found" 0)
        db g idx [g] 0 0 0 false := by
  unfold stageQuota validateAndConsumeQuota
  rw [if_neg h, hu]
  rfl

/-- The quota stage preserves the number of stored records. -/
theorem stageQuota_records_length (env : OrchEnv) (ctx quotaCtx : GenerationContext)
    (att : Nat → ServiceRun) (db : DB) (g : GenRecord) (idx : Nat) :
    (stageQuota env ctx quotaCtx att db g idx).db.records.length = db.records.length := by
  by_cases hq : quotaCtx.quotaInfo.remaining < g.credits
  · rw [stageQuota_insufficient env ctx quotaCtx att db g idx hq]
    simp [runFailureWithRecord, saveRecordAt]
  · cases hu : findUser db quotaCtx.userId with
    | none =>
        rw [stageQuota_userMissing env ctx quotaCtx att db g idx hq hu]
        simp [runFailureWithRecord, saveRecordAt]
    | some u =>
        rw [stageQuota_consume env ctx quotaCtx att db g idx u hq hu]
        rw [stageSubmit_records_length]
        simp [saveRecordAt, setUser]

/-- The quota stage always reports a working record. -/
theorem stageQuota_record_isSome (env : OrchEnv) (ctx quotaCtx : GenerationContext)
    (att : Nat → ServiceRun) (db : DB) (g : GenRecord) (idx : Nat) :
    (stageQuota env ctx quotaCtx att db g idx).record.isSome = true := by
  by_cases hq : quotaCtx.quotaInfo.remaining < g.credits
  · rw [stageQuota_insufficient env ctx quotaCtx att db g idx hq]; rfl
  · cases hu : findUser db quotaCtx.userId with
    | none => rw [stageQuota_userMissing env ctx quotaCtx att db g idx hq hu]; rfl
    | some u =>
        rw [stageQuota_consume env ctx quotaCtx att db g idx u hq hu]
        exact stageSubmit_record_isSome _ _ _ _ _ _ _

/-- ensureUserExists never touches the record store. -/
theorem ensureUserExists_records (db : DB) (uid : String) :
    (Controller.ensureUserExists db uid).snd.records = db.records := by
  unfold Controller.ensureUserExists
  cases findUser db uid <;> rfl

/-- A successful service call always carries exactly one image. -/
theorem textToImage_ok_singleton (env : ServiceEnv) (r : GenResponse)
    (h : (FreepikImageService.textToImage env).result = Except.ok r) :
    ∃ d, r.images = [d] := by
  unfold FreepikImageService.textToImage at h
  cases hs : env.submit with
  | httpError s m => rw [hs] at h; simp at h
  | invalidShape => rw [hs] at h; simp at h
  | immediateUrl u =>
      rw [hs] at h
      simp only [Except.ok.injEq] at h
      exact ⟨_, by rw [← h]; rfl⟩
  | taskOnly t =>
      rw [hs] at h
      simp only at h
      cases hp : (pollGenerationResult env.polls pollDefaultMaxAttempts).result with
      | error e => rw [hp] at h; simp at h
      | ok polled =>
          rw [hp] at h
          simp only at h
          cases hu : polled.imageUrl with
          | none => rw [hu] at h; simp at h
          | some u =>
              rw [hu] at h
              simp only [Except.ok.injEq] at h
              exact ⟨_, by rw [← h]; rfl⟩

/-- When the submit response carries only a task id and every poll reports
still-running, the service call fails with the timeout error after exactly
the default attempt ceiling of poll requests. -/
theorem textToImage_timeout (env : ServiceEnv) (t : String)
    (hs : env.submit = SubmitHttp.taskOnly t) (hp : ∀ i, env.polls i = PollHttp.running) :
    FreepikImageService.textToImage env =
      { result := Except.error (OrchError.appError
          "Image generation timed out after 60 seconds" 408 "FREEPIK_TIMEOUT"),
        pollCalls := pollDefaultMaxAttempts,
        pollSleepMs := pollDefaultMaxAttempts * pollIntervalMs } := by
  unfold FreepikImageService.textToImage
  rw [hs]
  unfold pollGenerationResult
  rw [pollLoop_allRunning env.polls hp pollDefaultMaxAttempts 0]

/-- A successful retry outcome originates in a successful attempt. -/
theorem withRetry_ok_exists (att : Nat → ServiceRun) (d : Nat) :
    ∀ n i v, (withRetry att d i n).result = Except.ok v →
      ∃ j, (att j).result = Except.ok v := by
  intro n
  induction n with
  | zero => intro i v h; rw [withRetry] at h; simp at h
  | succ m ih =>
      intro i v h
      rw [withRetry] at h
      cases ha : (att i).result with
      | ok w =>
          rw [ha] at h
          simp only at h
          exact ⟨i, by rw [ha, h.symm]⟩
      | error e =>
          rw [ha] at h
          by_cases ht : e.isTransient = true
          · by_cases hm : m = 0
            · subst hm; simp [ht] at h
            · simp only [ht, if_true, hm, if_false] at h
              exact ih (i + 1) v h
          · have ht' : e.isTransient = false := by simpa using ht
            simp [ht'] at h

/-- One orchestrator run appends exactly one record to the store when and
only when it reports a working record. -/
theorem generateTextToImage_records_length (env : OrchEnv) (ctx : GenerationContext) (db : DB) :
    (generateTextToImage env ctx db).db.records.length =
      db.records.length +
        (if (generateTextToImage env ctx db).record.isSome then 1 else 0) := by
  unfold generateTextToImage
  cases hval : validateGenerationContext ctx db with
  | error e => simp [runFailureNoRecord]
  | ok _ =>
      simp only
      rw [stageQuota_records_length, stageQuota_record_isSome]
      simp

/-- Failure results assembled by the catch blocks have the failure shape. -/
theorem resultShape_catchResult (e : OrchError) : resultShape (catchResult e) :=
  Or.inr ⟨rfl, ⟨_, rfl⟩⟩

/-- The submit stage always produces a shaped result. -/
theorem stageSubmit_resultShape (env : OrchEnv) (ctx : GenerationContext)
    (att : Nat → ServiceRun) (db : DB) (g : GenRecord) (idx : Nat) (states : List GenRecord) :
    resultShape (stageSubmit env ctx att db g idx states).result := by
  unfold stageSubmit
  cases h : (executeWithRetry att).result with
  | error e =>
      simp only [h]
      exact Or.inr ⟨rfl, ⟨_, rfl⟩⟩
  | ok resp =>
      simp only [h]
      exact Or.inl ⟨rfl, rfl⟩

/-- The quota stage always produces a shaped result. -/
theorem stageQuota_resultShape (env : OrchEnv) (ctx quotaCtx : GenerationContext)
    (att : Nat → ServiceRun) (db : DB) (g : GenRecord) (idx : Nat) :
    resultShape (stageQuota env ctx quotaCtx att db g idx).result := by
  by_cases hq : quotaCtx.quotaInfo.remaining < g.credits
  · rw [stageQuota_insufficient env ctx quotaCtx att db g idx hq]
    exact resultShape_catchResult _
  · cases hu : findUser db quotaCtx.userId with
    | none =>
        rw [stageQuota_userMissing env ctx quotaCtx att db g idx hq hu]
        exact resultShape_catchResult _
    | some u =>
        rw [stageQuota_consume env ctx quotaCtx att db g idx u hq hu]
        exact stageSubmit_resultShape _ _ _ _ _ _ _

/-- Output processing preserves the number of images. -/
theorem processGeneratedImages_length (uploads : Nat → UploadStep) (tier : String)
    (images : List ImageData) :
    (processGeneratedImages uploads tier images).length = images.length := by
  unfold processGeneratedImages
  simp

/-- The record invariant holds of a clean in-flight record. -/
theorem recordInv_inflight (g : GenRecord) (hout : g.outputImages = [])
    (herr : g.errorMessage = none)
    (hc : g.status ≠ RecStatus.completed) (hf : g.status ≠ RecStatus.failed) :
    recordInv g := by
  refine ⟨?_, ?_, fun _ => hout⟩
  · simp [hout, hc]
  · simp [herr, hf]

/-- The record invariant holds of the failed update of a record without
outputs. -/
theorem recordInv_failedUpdate (g : GenRecord) (m : String) (hout : g.outputImages = []) :
    recordInv { g with status := RecStatus.failed, errorMessage := some m } := by
  refine ⟨?_, ?_, ?_⟩ <;> simp [hout]

/-- The record invariant holds of the completed update of a record without
an error message, given the produced outputs are present. -/
theorem recordInv_completedUpdate (g : GenRecord) (imgs : List ImageData)
    (herr : g.errorMessage = none) (himgs : imgs ≠ []) :
    recordInv { g with status := RecStatus.completed, outputImages := imgs } := by
  refine ⟨?_, ?_, ?_⟩ <;> simp [herr, himgs]

/-- Every record state saved by the submit stage satisfies the record
invariant, provided its input record is a clean in-flight record whose
earlier saved states do, and every successful service attempt carries at
least one image. -/
theorem stageSubmit_states_inv (env : OrchEnv) (ctx : GenerationContext)
    (att : Nat → ServiceRun) (db : DB) (g : GenRecord) (idx : Nat) (states : List GenRecord)
    (hout : g.outputImages = []) (herr : g.errorMessage = none)
    (hstates : ∀ x ∈ states, recordInv x)
    (hatt : ∀ i v, (att i).result = Except.ok v → v.images ≠ []) :
    ∀ x ∈ (stageSubmit env ctx att db g idx states).recordStates, recordInv x := by
  unfold stageSubmit
  cases h : (executeWithRetry att).result with
  | error e =>
      simp only [h, runFailureWithRecord]
      intro x hx
      rcases List.mem_append.mp hx with hx | hx
      · exact hstates x hx
      · rw [List.mem_singleton.mp hx]
        exact recordInv_failedUpdate g _ hout
  | ok resp =>
      simp only [h]
      intro x hx
      rcases List.mem_append.mp hx with hx | hx
      · exact hstates x hx
      · have himg : resp.images ≠ [] := by
          obtain ⟨j, hj⟩ := withRetry_ok_exists att baseRetryDelayMs maxRetryAttempts 0 resp h
          exact hatt j resp hj
        have hproc : processGeneratedImages env.uploads (tierName ctx.subscriptionTier) resp.images ≠ [] := by
          intro hnil
          apply himg
          have hlen := processGeneratedImages_length env.uploads (tierName ctx.subscriptionTier) resp.images
          rw [hnil] at hlen
          exact List.length_eq_zero.mp hlen.symm
        rw [List.mem_singleton.mp hx]
        exact recordInv_completedUpdate g _ herr hproc

/-- Every record state saved by the quota stage satisfies the record
invariant, provided its input record is a clean pending record. -/
theorem stageQuota_states_inv (env : OrchEnv) (ctx quotaCtx : GenerationContext)
    (att : Nat → ServiceRun) (db : DB) (g : GenRecord) (idx : Nat)
    (hout : g.outputImages = []) (herr : g.errorMessage = none)
    (hc : g.status ≠ RecStatus.completed) (hf : g.status ≠ RecStatus.failed)
    (hatt : ∀ i v, (att i).result = Except.ok v → v.images ≠ []) :
    ∀ x ∈ (stageQuota env ctx quotaCtx att db g idx).recordStates, recordInv x := by
  have hinvg : recordInv g := recordInv_inflight g hout herr hc hf
  by_cases hq : quotaCtx.quotaInfo.remaining < g.credits
  · rw [stageQuota_insufficient env ctx quotaCtx att db g idx hq]
    simp only [runFailureWithRecord]
    intro x hx
    rcases List.mem_append.mp hx with hx | hx
    · rw [List.mem_singleton.mp hx]; exact hinvg
    · rw [List.mem_singleton.mp hx]
      exact recordInv_failedUpdate g _ hout
  · cases hu : findUser db quotaCtx.userId with
    | none =>
        rw [stageQuota_userMissing env ctx quotaCtx att db g idx hq hu]
        simp only [runFailureWithRecord]
        intro x hx
        rcases List.mem_append.mp hx with hx | hx
        · rw [List.mem_singleton.mp hx]; exact hinvg
        · rw [List.mem_singleton.mp hx]
          exact recordInv_failedUpdate g _ hout
    | some u =>
        rw [stageQuota_consume env ctx quotaCtx att db g idx u hq hu]
        refine stageSubmit_states_inv env ctx att _ _ idx _ hout herr ?_ hatt
        intro x hx
        rcases List.mem_cons.mp hx with hx | hx
        · rw [hx]; exact hinvg
        · rw [List.mem_singleton.mp hx]
          exact recordInv_inflight _ hout herr (by simp) (by simp)

end Lemmas


section Claims

open FreepikImageService Orchestrator Controller

/-- C1: (counterexample) A failed generation does consume quota: with user
u1 at usage 0, remaining quota 10 and cost 1, a run whose provider submit
always fails transiently ends unsuccessfully, yet the persisted usage
counter afterwards is 1, not its value 0 from before the job. -/
theorem C1_counterexample :
    (Orchestrator.generateTextToImage (mkEnv seTransient) (wCtx 10) wDB).result.success = false
    ∧ findUser wDB "u1" = some { monthlyUsage := 0, isActive := true, subscriptionTier := Tier.free }
    ∧ findUser (Orchestrator.generateTextToImage (mkEnv seTransient) (wCtx 10) wDB).db "u1"
        = some { monthlyUsage := 1, isActive := true, subscriptionTier := Tier.free } :=
  ⟨rfl, rfl, rfl⟩

/-- C1: (amended) Quota consumed at the reserve step is never rolled back:
after any run of generateTextToImage, the persisted usage of the owner is
its previous value plus the job cost exactly when the quota step consumed,
regardless of whether the job then completed or failed; so consumed usage
accumulates the costs of all jobs that passed the reserve step, not only of
the completed ones. -/
theorem C1_amended (env : OrchEnv) (ctx : GenerationContext) (db : DB) (u : UserDoc)
    (hu : findUser db ctx.userId = some u) :
    findUser (Orchestrator.generateTextToImage env ctx db).db ctx.userId =
      some { u with monthlyUsage := u.monthlyUsage +
        (if (Orchestrator.generateTextToImage env ctx db).quotaConsumed then env.calcCost else 0) } := by
  cases hval : Orchestrator.validateGenerationContext ctx db with
  | error e =>
      unfold Orchestrator.generateTextToImage
      rw [hval]
      simp only [runFailureNoRecord, Bool.false_eq_true, if_false]
      rw [hu]
      obtain ⟨mu, ia, st⟩ := u
      simp
  | ok v =>
      cases v
      rw [generateTextToImage_validated env ctx db hval]
      by_cases hq : ctx.quotaInfo.remaining < (createGenerationRecord env ctx "text-to-image").credits
      · rw [stageQuota_insufficient env ctx ctx _ _ _ _ hq]
        simp only [runFailureWithRecord, Bool.false_eq_true, if_false]
        have h1 : findUser
            (saveRecordAt { db with records := db.records ++ [createGenerationRecord env ctx "text-to-image"] }
              db.records.length
              { createGenerationRecord env ctx "text-to-image" with
                  status := RecStatus.failed,
                  errorMessage := some (OrchError.quotaExceededError "Insufficient quota"
                    ctx.quotaInfo.remaining).errMessage })
            ctx.userId = some u := hu
        rw [h1]
        obtain ⟨mu, ia, st⟩ := u
        simp
      · have hu1 : findUser
            { db with records := db.records ++ [createGenerationRecord env ctx "text-to-image"] }
            ctx.userId = some u := hu
        rw [stageQuota_consume env ctx ctx _ _ _ _ u hq hu1]
        rw [stageSubmit_quotaConsumed]
        simp only [if_true]
        rw [findUser_congr_users _ _ ctx.userId (stageSubmit_users _ _ _ _ _ _ _)]
        exact findUser_setUser _ ctx.userId u _ hu1

/-- C1: (amended, witness) The amended statement evaluated on the concrete
failing run of the counterexample. -/
theorem C1_amended_witness :
    findUser wDB "u1" = some { monthlyUsage := 0, isActive := true, subscriptionTier := Tier.free }
    ∧ findUser (Orchestrator.generateTextToImage (mkEnv seTransient) (wCtx 10) wDB).db "u1" =
        some { monthlyUsage := 0 + (if (Orchestrator.generateTextToImage (mkEnv seTransient) (wCtx 10) wDB).quotaConsumed then (mkEnv seTransient).calcCost else 0), isActive := true, subscriptionTier := Tier.free } :=
  ⟨rfl, C1_amended (mkEnv seTransient) (wCtx 10) wDB
    { monthlyUsage := 0, isActive := true, subscriptionTier := Tier.free } rfl⟩

/-- C2: (counterexample) generateVideo propagates an exception past the
orchestrator boundary: with an empty image URL it rethrows the AppError
instead of returning a failure result. -/
theorem C2_counterexample :
    Orchestrator.generateVideo (Except.ok { videoUrl := none, taskId := none })
      { imageUrl := "" } =
    Except.error (OrchError.appError "Invalid image URL provided" 400 "INVALID_IMAGE_URL") := rfl

/-- C2: (amended) The four image entry points always return a structured
result, success with no error object or failure with one, never an
exception; generateVideo instead propagates failures as thrown AppErrors
past its boundary (an AppError is rethrown unchanged, anything else is
wrapped and rethrown). -/
theorem C2_amended :
    (∀ env ctx db, resultShape (Orchestrator.generateTextToImage env ctx db).result)
    ∧ (∀ env ctx db, resultShape (Orchestrator.generateImageToImage env ctx db).result)
    ∧ (∀ env ctx n db, resultShape (Orchestrator.generateMultiImageComposition env ctx n db).result)
    ∧ (∀ env ctx db, resultShape (Orchestrator.refineImage env ctx db).result)
    ∧ (∀ sr p, (∃ v, Orchestrator.generateVideo sr p = Except.ok v)
        ∨ (∃ e, Orchestrator.generateVideo sr p = Except.error e ∧ e.isAppError = true)) := by
  refine ⟨?_, ?_, ?_, ?_, ?_⟩
  · intro env ctx db
    unfold Orchestrator.generateTextToImage
    cases hval : validateGenerationContext ctx db with
    | error e => exact resultShape_catchResult e
    | ok v => exact stageQuota_resultShape _ _ _ _ _ _ _
  · intro env ctx db
    unfold Orchestrator.generateImageToImage
    by_cases hi : env.imageValid 0
    · simp only [hi]
      cases hval : validateGenerationContext ctx db with
      | error e => simp only; exact resultShape_catchResult e
      | ok v => simp only; exact stageQuota_resultShape _ _ _ _ _ _ _
    · have hi2 : env.imageValid 0 = false := by simpa using hi
      simp only [hi2]
      exact resultShape_catchResult _
  · intro env ctx n db
    unfold Orchestrator.generateMultiImageComposition
    by_cases ht : ctx.subscriptionTier = Tier.free
    · simp only [ht, if_true]
      exact resultShape_catchResult _
    · rw [if_neg ht]
      by_cases hi : (List.range n).any (fun i => !env.imageValid i)
      · rw [if_pos hi]
        exact resultShape_catchResult _
      · rw [if_neg hi]
        cases hval : validateGenerationContext ctx db with
        | error e => exact resultShape_catchResult e
        | ok v => exact stageQuota_resultShape _ _ _ _ _ _ _
  · intro env ctx db
    unfold Orchestrator.refineImage
    by_cases hi : env.imageValid 0
    · simp only [hi]
      cases hval : validateGenerationContext ctx db with
      | error e => simp only; exact resultShape_catchResult e
      | ok v => simp only; exact stageQuota_resultShape _ _ _ _ _ _ _
    · have hi2 : env.imageValid 0 = false := by simpa using hi
      simp only [hi2]
      exact resultShape_catchResult _
  · intro sr p
    unfold Orchestrator.generateVideo
    by_cases hurl : p.imageUrl = ""
    · rw [if_pos hurl]
      exact Or.inr ⟨_, rfl, rfl⟩
    · rw [if_neg hurl]
      cases sr with
      | error e =>
          by_cases ha : e.isAppError = true
          · exact Or.inr ⟨e, by simp [ha], ha⟩
          · have ha2 : e.isAppError = false := by simpa using ha
            exact Or.inr ⟨OrchError.appError ("Video generation failed: " ++ e.errMessage) 500 "VIDEO_GENERATION_ERROR", by simp [ha2], rfl⟩
      | ok vr =>
          cases hv : vr.videoUrl with
          | none =>
              exact Or.inr ⟨OrchError.appError "Video URL not returned from generation service" 500 "NO_VIDEO_URL",
                And.intro (by simp [hv, OrchError.isAppError]) rfl⟩
          | some u =>
              exact Or.inl ⟨{ videoUrl := u, taskId := vr.taskId }, by simp [hv]⟩

/-- C3: On insufficient quota the job fails with the QUOTA_EXCEEDED reason
before any provider call: no submit attempt is made, the user documents are
untouched, and the working record ends failed. -/
theorem C3_quota_insufficient (env : OrchEnv) (ctx : GenerationContext) (db : DB)
    (hval : Orchestrator.validateGenerationContext ctx db = Except.ok ())
    (hq : ctx.quotaInfo.remaining < env.calcCost) :
    (Orchestrator.generateTextToImage env ctx db).result.success = false
    ∧ (Orchestrator.generateTextToImage env ctx db).result.errorInfo.map GenErrorInfo.code
        = some "QUOTA_EXCEEDED"
    ∧ (Orchestrator.generateTextToImage env ctx db).submitCalls = 0
    ∧ (Orchestrator.generateTextToImage env ctx db).db.users = db.users
    ∧ (Orchestrator.generateTextToImage env ctx db).record.map GenRecord.status
        = some RecStatus.failed := by
  rw [generateTextToImage_validated env ctx db hval]
  rw [stageQuota_insufficient env ctx ctx _ _ _ _ hq]
  exact ⟨rfl, rfl, rfl, rfl, rfl⟩

/-- C3: (witness) The insufficient-quota theorem evaluated at remaining 0
against cost 1. -/
theorem C3_witness :
    Orchestrator.validateGenerationContext (wCtx 0) wDB = Except.ok ()
    ∧ (wCtx 0).quotaInfo.remaining < (mkEnv seOk).calcCost
    ∧ ((Orchestrator.generateTextToImage (mkEnv seOk) (wCtx 0) wDB).result.success = false
        ∧ (Orchestrator.generateTextToImage (mkEnv seOk) (wCtx 0) wDB).result.errorInfo.map GenErrorInfo.code
            = some "QUOTA_EXCEEDED"
        ∧ (Orchestrator.generateTextToImage (mkEnv seOk) (wCtx 0) wDB).submitCalls = 0
        ∧ (Orchestrator.generateTextToImage (mkEnv seOk) (wCtx 0) wDB).db.users = wDB.users
        ∧ (Orchestrator.generateTextToImage (mkEnv seOk) (wCtx 0) wDB).record.map GenRecord.status
            = some RecStatus.failed) :=
  ⟨rfl, by decide, C3_quota_insufficient (mkEnv seOk) (wCtx 0) wDB rfl (by decide)⟩

/-- C4: Poll bounds.  When the provider reports still-running at every
poll: the image poll loop issues exactly its default ceiling of 30 poll
requests, sleeping the fixed 2000 ms interval before each, and fails with
the 408 FREEPIK_TIMEOUT error; the video poll loop at its ceiling of 60
behaves likewise with FREEPIK_VIDEO_TIMEOUT; and a text-to-image job whose
submission returned only a task id then ends failed with the timeout
reason after exactly 30 poll requests from a single service attempt. -/
theorem C4_poll_bounds :
    (∀ polls : Nat → PollHttp, (∀ i, polls i = PollHttp.running) →
      pollGenerationResult polls pollDefaultMaxAttempts =
        { result := Except.error (OrchError.appError
            "Image generation timed out after 60 seconds" 408 "FREEPIK_TIMEOUT"),
          calls := pollDefaultMaxAttempts,
          sleepMs := pollDefaultMaxAttempts * pollIntervalMs })
    ∧ pollDefaultMaxAttempts = 30 ∧ pollIntervalMs = 2000 ∧ videoPollMaxAttempts = 60
    ∧ (∀ polls : Nat → VPollHttp, (∀ i, polls i = VPollHttp.running) →
      pollVideoGenerationResult polls videoPollMaxAttempts =
        { result := Except.error (OrchError.appError
            "Video generation timed out after 2 minutes" 408 "FREEPIK_VIDEO_TIMEOUT"),
          calls := videoPollMaxAttempts,
          sleepMs := videoPollMaxAttempts * pollIntervalMs })
    ∧ (∀ (env : OrchEnv) (ctx : GenerationContext) (db : DB) (t : String) (u : UserDoc),
        Orchestrator.validateGenerationContext ctx db = Except.ok () →
        ¬ ctx.quotaInfo.remaining < env.calcCost →
        findUser db ctx.userId = some u →
        (∀ i, (env.freepik i).submit = SubmitHttp.taskOnly t) →
        (∀ i j, (env.freepik i).polls j = PollHttp.running) →
        (Orchestrator.generateTextToImage env ctx db).pollCalls = pollDefaultMaxAttempts
        ∧ (Orchestrator.generateTextToImage env ctx db).submitCalls = 1
        ∧ (Orchestrator.generateTextToImage env ctx db).result.success = false
        ∧ (Orchestrator.generateTextToImage env ctx db).result.errorInfo.map GenErrorInfo.code
            = some "FREEPIK_TIMEOUT") := by
  refine ⟨?_, rfl, rfl, rfl, ?_, ?_⟩
  · intro polls h
    exact pollLoop_allRunning polls h pollDefaultMaxAttempts 0
  · intro polls h
    exact vPollLoop_allRunning polls h videoPollMaxAttempts 0
  · intro env ctx db t u hval hq hu hsub hpoll
    rw [generateTextToImage_validated env ctx db hval]
    have hu1 : findUser
        { db with records := db.records ++ [createGenerationRecord env ctx "text-to-image"] }
        ctx.userId = some u := hu
    rw [stageQuota_consume env ctx ctx _ _ _ _ u hq hu1]
    have hatt0 : FreepikImageService.textToImage (env.freepik 0) =
        { result := Except.error (OrchError.appError
            "Image generation timed out after 60 seconds" 408 "FREEPIK_TIMEOUT"),
          pollCalls := pollDefaultMaxAttempts,
          pollSleepMs := pollDefaultMaxAttempts * pollIntervalMs } :=
      textToImage_timeout (env.freepik 0) t (hsub 0) (hpoll 0)
    have hrr : executeWithRetry (fun i => FreepikImageService.textToImage (env.freepik i)) =
        { result := Except.error (OrchError.appError
            "Image generation timed out after 60 seconds" 408 "FREEPIK_TIMEOUT"),
          attempts := 1, pollCalls := pollDefaultMaxAttempts, retryDelayMs := 0 } := by
      have hfe : executeWithRetry (fun i => FreepikImageService.textToImage (env.freepik i)) =
          withRetry (fun i => FreepikImageService.textToImage (env.freepik i))
            baseRetryDelayMs 0 (2 + 1) := rfl
      rw [hfe]
      rw [withRetry_fatal (fun i => FreepikImageService.textToImage (env.freepik i))
        baseRetryDelayMs 0 2
        (OrchError.appError "Image generation timed out after 60 seconds" 408 "FREEPIK_TIMEOUT")
        (by rw [show (fun i => FreepikImageService.textToImage (env.freepik i)) 0 =
              FreepikImageService.textToImage (env.freepik 0) from rfl, hatt0])
        (by decide)]
      rw [hatt0]
    rw [stageSubmit_error env ctx _ _ _ _ _ _ (by rw [hrr])]
    rw [hrr]
    exact ⟨rfl, rfl, rfl, rfl⟩

/-- C4: (witness) The poll-bound theorem evaluated at the concrete
always-running environments. -/
theorem C4_witness :
    ((∀ i, (fun _ : Nat => PollHttp.running) i = PollHttp.running)
      ∧ pollGenerationResult (fun _ => PollHttp.running) pollDefaultMaxAttempts =
          { result := Except.error (OrchError.appError
              "Image generation timed out after 60 seconds" 408 "FREEPIK_TIMEOUT"),
            calls := pollDefaultMaxAttempts,
            sleepMs := pollDefaultMaxAttempts * pollIntervalMs })
    ∧ ((Orchestrator.generateTextToImage (mkEnv seTimeout) (wCtx 10) wDB).pollCalls = pollDefaultMaxAttempts
        ∧ (Orchestrator.generateTextToImage (mkEnv seTimeout) (wCtx 10) wDB).submitCalls = 1
        ∧ (Orchestrator.generateTextToImage (mkEnv seTimeout) (wCtx 10) wDB).result.success = false
        ∧ (Orchestrator.generateTextToImage (mkEnv seTimeout) (wCtx 10) wDB).result.errorInfo.map GenErrorInfo.code
            = some "FREEPIK_TIMEOUT") :=
  ⟨⟨fun _ => rfl, C4_poll_bounds.1 (fun _ => PollHttp.running) (fun _ => rfl)⟩,
    C4_poll_bounds.2.2.2.2.2 (mkEnv seTimeout) (wCtx 10) wDB "task1" wUser rfl
      (by decide) rfl (fun _ => rfl) (fun _ _ => rfl)⟩

/-- C5: Retry bound.  When every service attempt fails transiently, a
text-to-image run makes exactly 3 submit attempts (the budget passed to the
retry handler, with its 1000 ms base delay waited between consecutive
attempts, 2000 ms in total), and the job ends failed with the
PROVIDER_UNAVAILABLE reason. -/
theorem C5_retry_bound (env : OrchEnv) (ctx : GenerationContext) (db : DB) (u : UserDoc)
    (hval : Orchestrator.validateGenerationContext ctx db = Except.ok ())
    (hq : ¬ ctx.quotaInfo.remaining < env.calcCost)
    (hu : findUser db ctx.userId = some u)
    (htrans : ∀ i, ∃ e, (FreepikImageService.textToImage (env.freepik i)).result = Except.error e
        ∧ e.isTransient = true) :
    (Orchestrator.generateTextToImage env ctx db).submitCalls = 3
    ∧ (Orchestrator.generateTextToImage env ctx db).retryDelayMs = 2 * 1000
    ∧ (Orchestrator.generateTextToImage env ctx db).result.success = false
    ∧ (Orchestrator.generateTextToImage env ctx db).result.errorInfo.map GenErrorInfo.code
        = some "PROVIDER_UNAVAILABLE"
    ∧ maxRetryAttempts = 3 ∧ baseRetryDelayMs = 1000 := by
  rw [generateTextToImage_validated env ctx db hval]
  have hu1 : findUser
      { db with records := db.records ++ [createGenerationRecord env ctx "text-to-image"] }
      ctx.userId = some u := hu
  rw [stageQuota_consume env ctx ctx _ _ _ _ u hq hu1]
  obtain ⟨h1, ⟨m, h2⟩, h3⟩ :=
    withRetry_allTransient (fun i => FreepikImageService.textToImage (env.freepik i))
      baseRetryDelayMs htrans 2 0
  have hfe : executeWithRetry (fun i => FreepikImageService.textToImage (env.freepik i)) =
      withRetry (fun i => FreepikImageService.textToImage (env.freepik i))
        baseRetryDelayMs 0 (2 + 1) := rfl
  have hres : (executeWithRetry (fun i => FreepikImageService.textToImage (env.freepik i))).result =
      Except.error (OrchError.providerUnavailable m) := by rw [hfe]; exact h2
  have ha : (executeWithRetry (fun i => FreepikImageService.textToImage (env.freepik i))).attempts = 3 := by
    rw [hfe]; simpa using h1
  have hd : (executeWithRetry (fun i => FreepikImageService.textToImage (env.freepik i))).retryDelayMs = 2 * 1000 := by
    rw [hfe]; simpa using h3
  rw [stageSubmit_error env ctx _ _ _ _ _ _ hres]
  exact ⟨ha, hd, rfl, rfl, rfl, rfl⟩

/-- C5: (witness) The retry-bound theorem evaluated on a service whose
submission always answers 500. -/
theorem C5_witness :
    (∀ i, ∃ e, (FreepikImageService.textToImage ((mkEnv seTransient).freepik i)).result = Except.error e
        ∧ e.isTransient = true)
    ∧ ((Orchestrator.generateTextToImage (mkEnv seTransient) (wCtx 10) wDB).submitCalls = 3
        ∧ (Orchestrator.generateTextToImage (mkEnv seTransient) (wCtx 10) wDB).retryDelayMs = 2 * 1000
        ∧ (Orchestrator.generateTextToImage (mkEnv seTransient) (wCtx 10) wDB).result.success = false
        ∧ (Orchestrator.generateTextToImage (mkEnv seTransient) (wCtx 10) wDB).result.errorInfo.map GenErrorInfo.code
            = some "PROVIDER_UNAVAILABLE"
        ∧ maxRetryAttempts = 3 ∧ baseRetryDelayMs = 1000) :=
  ⟨fun i => ⟨OrchError.appError ("Freepik API error: " ++ "server error") 500 "FREEPIK_API_ERROR",
      rfl, rfl⟩,
    C5_retry_bound (mkEnv seTransient) (wCtx 10) wDB wUser rfl (by decide) rfl
      (fun i => ⟨OrchError.appError ("Freepik API error: " ++ "server error") 500 "FREEPIK_API_ERROR",
        rfl, rfl⟩)⟩

/-- C6: Record invariant.  Every record state a text-to-image run saves
satisfies: completed exactly when outputs are present (a successful service
call always carries one image), failed exactly when an error detail is
recorded, and failed records carry no outputs. -/
theorem C6_record_invariant (env : OrchEnv) (ctx : GenerationContext) (db : DB) :
    ∀ g ∈ (Orchestrator.generateTextToImage env ctx db).recordStates, recordInv g := by
  unfold Orchestrator.generateTextToImage
  cases hval : validateGenerationContext ctx db with
  | error e =>
      intro g hg
      simp [runFailureNoRecord] at hg
  | ok v =>
      refine stageQuota_states_inv env ctx ctx _ _ _ _ rfl rfl
        (by simp [createGenerationRecord]) (by simp [createGenerationRecord]) ?_
      intro i r hr
      obtain ⟨d, hd⟩ := textToImage_ok_singleton (env.freepik i) r hr
      simp [hd]

/-- C6: (witness) The record invariant evaluated on the pending record of a
successful concrete run. -/
theorem C6_witness :
    wPendingRecord ∈ (Orchestrator.generateTextToImage (mkEnv seOk) (wCtx 10) wDB).recordStates
    ∧ recordInv wPendingRecord :=
  ⟨by decide, C6_record_invariant (mkEnv seOk) (wCtx 10) wDB wPendingRecord (by decide)⟩

/-- C7: (counterexample) One successful attempt persists two records, not
one: the working record of the orchestrator and the history record of the
controller. -/
theorem C7_counterexample :
    wDB.records.length = 0
    ∧ (Controller.textToImage (mkEnv seOk) wCtrlReq wDB).db.records.length = 2 :=
  ⟨rfl, rfl⟩

/-- C7: (amended) Per authenticated request the controller always persists
exactly one history record, and the orchestrator persists one additional
working record whenever it reaches record creation; so an attempt stores
two records when the orchestrator created its record and one otherwise,
never exactly one across the board. -/
theorem C7_amended (env : OrchEnv) (req : CtrlReq) (db : DB) (uid : String)
    (hauth : req.authUserId = some uid) :
    (Controller.textToImage env req db).db.records.length =
      db.records.length +
        (if (Controller.textToImage env req db).orchRecordCreated then 2 else 1) := by
  unfold Controller.textToImage
  rw [hauth]
  simp only [saveGenerationHistory]
  have h1 := generateTextToImage_records_length env
      (createContext uid (ensureUserExists db uid).fst.subscriptionTier req.body req.quotaInfo)
      (ensureUserExists db uid).snd
  rw [ensureUserExists_records db uid] at h1
  rw [List.length_append, h1]
  simp only [List.length_singleton]
  by_cases hb : (Orchestrator.generateTextToImage env
      (createContext uid (ensureUserExists db uid).fst.subscriptionTier req.body req.quotaInfo)
      (ensureUserExists db uid).snd).record.isSome = true
  · rw [if_pos hb, if_pos hb]
  · rw [if_neg hb, if_neg hb]

/-- C7: (amended, witness) The amended record count evaluated on the
concrete successful run. -/
theorem C7_amended_witness :
    wCtrlReq.authUserId = some "u1"
    ∧ (Controller.textToImage (mkEnv seOk) wCtrlReq wDB).db.records.length =
        wDB.records.length +
          (if (Controller.textToImage (mkEnv seOk) wCtrlReq wDB).orchRecordCreated then 2 else 1) :=
  ⟨rfl, C7_amended (mkEnv seOk) wCtrlReq wDB "u1" rfl⟩

/-- C8: (counterexample) A failed request whose reason is the polling
timeout is answered with HTTP 400 and a body that carries no code field,
where the claim requires 500 for timeouts and a code field on every
failure body. -/
theorem C8_counterexample :
    (Controller.textToImage (mkEnv seTimeout) wCtrlReq wDB).response.status = 400
    ∧ (Controller.textToImage (mkEnv seTimeout) wCtrlReq wDB).response.code = none
    ∧ (Controller.textToImage (mkEnv seTimeout) wCtrlReq wDB).response.success = false :=
  ⟨rfl, rfl, rfl⟩

/-- C8: (amended) The failure body of the image controller is
success-false with a message and no code field; the HTTP status is 401 when
no user id was resolved, and otherwise 400 for every orchestrator-reported
failure regardless of its reason, with 200 on success; the video route maps
every thrown service error to 500. -/
theorem C8_amended :
    (∀ env req db, req.authUserId = none →
      (Controller.textToImage env req db).response =
        { status := 401, success := false,
          message := some "Authentication required - no user ID found", code := none })
    ∧ (∀ env req db uid, req.authUserId = some uid →
        ((Controller.textToImage env req db).response.success = true
          ∧ (Controller.textToImage env req db).response.status = 200
          ∧ (Controller.textToImage env req db).response.code = none)
        ∨ ((Controller.textToImage env req db).response.success = false
          ∧ (Controller.textToImage env req db).response.status = 400
          ∧ (Controller.textToImage env req db).response.code = none
          ∧ (Controller.textToImage env req db).response.message.isSome = true))
    ∧ (∀ img p m, Controller.videoRouteGenerateVideo (some img) (some p) (Except.error m) =
        { status := 500, success := false, message := some m, code := none }) := by
  refine ⟨?_, ?_, fun _ _ _ => rfl⟩
  · intro env req db hauth
    unfold Controller.textToImage
    rw [hauth]
  · intro env req db uid hauth
    unfold Controller.textToImage
    rw [hauth]
    by_cases hs : (Orchestrator.generateTextToImage env
        (createContext uid (ensureUserExists db uid).fst.subscriptionTier req.body req.quotaInfo)
        (ensureUserExists db uid).snd).result.success = true
    · left
      refine ⟨?_, ?_, ?_⟩ <;> simp [hs]
    · right
      refine ⟨?_, ?_, ?_, ?_⟩ <;> simp [hs]

/-- C8: (amended, witness) The amended response mapping evaluated on a
request without authentication and on the concrete timed-out run. -/
theorem C8_witness :
    (Controller.textToImage (mkEnv seOk)
        { authUserId := none, body := wReq, quotaInfo := none } wDB).response =
      { status := 401, success := false,
        message := some "Authentication required - no user ID found", code := none }
    ∧ (((Controller.textToImage (mkEnv seTimeout) wCtrlReq wDB).response.success = true
          ∧ (Controller.textToImage (mkEnv seTimeout) wCtrlReq wDB).response.status = 200
          ∧ (Controller.textToImage (mkEnv seTimeout) wCtrlReq wDB).response.code = none)
        ∨ ((Controller.textToImage (mkEnv seTimeout) wCtrlReq wDB).response.success = false
          ∧ (Controller.textToImage (mkEnv seTimeout) wCtrlReq wDB).response.status = 400
          ∧ (Controller.textToImage (mkEnv seTimeout) wCtrlReq wDB).response.code = none
          ∧ (Controller.textToImage (mkEnv seTimeout) wCtrlReq wDB).response.message.isSome = true))
    ∧ Controller.videoRouteGenerateVideo (some "https://x/a.png") (some "wave")
        (Except.error "Video generation failed") =
      { status := 500, success := false, message := some "Video generation failed", code := none } :=
  ⟨C8_amended.1 (mkEnv seOk) { authUserId := none, body := wReq, quotaInfo := none } wDB rfl,
    C8_amended.2.1 (mkEnv seTimeout) wCtrlReq wDB "u1" rfl,
    C8_amended.2.2 "https://x/a.png" "wave" "Video generation failed"⟩

/-- C9: (counterexample) With the provider succeeding and the Cloudinary
upload failing, the job completes and the asset is kept, but no unpersisted
flag is set: processingError stays none while the ephemeral provider URL is
copied into both the url and secureUrl fields with zero bytes, leaving the
asset indistinguishable from a persisted one except by its zero byte
count. -/
theorem C9_counterexample :
    (Orchestrator.generateTextToImage (mkEnv seUploadFail) (wCtx 10) wDB).result.success = true
    ∧ (Orchestrator.generateTextToImage (mkEnv seUploadFail) (wCtx 10) wDB).result.images.map
        (fun d => d.processingError) = [none]
    ∧ (Orchestrator.generateTextToImage (mkEnv seUploadFail) (wCtx 10) wDB).result.images.map
        (fun d => d.url) = [some "https://img.freepik.com/a.png"]
    ∧ (Orchestrator.generateTextToImage (mkEnv seUploadFail) (wCtx 10) wDB).result.images.map
        (fun d => d.secureUrl) = [some "https://img.freepik.com/a.png"]
    ∧ (Orchestrator.generateTextToImage (mkEnv seUploadFail) (wCtx 10) wDB).result.images.map
        (fun d => d.bytes) = [0] :=
  ⟨rfl, rfl, rfl, rfl, rfl⟩

/-- C9: (amended) A failed upload never fails the job and never drops the
asset: the service-level fallback keeps the ephemeral source URL, but marks
nothing — it copies the source URL into the url and secureUrl fields with a
synthetic publicId and zero bytes; output processing keeps one output per
input, and its only failure marker, processingError, is set exactly by the
thrown-error path of the per-image catch. -/
theorem C9_amended :
    (∀ u nowMs, FreepikImageService.uploadToCloudinary u nowMs CloudUpload.failed =
      { url := u, secureUrl := u, publicId := "freepik_" ++ toString nowMs,
        format := "jpeg", width := 1024, height := 1024, bytes := 0 })
    ∧ (∀ uploads tier imgs, (processGeneratedImages uploads tier imgs).length = imgs.length)
    ∧ (∀ tier m img, processOne tier (UploadStep.threw m) img = { img with processingError := some m })
    ∧ (∀ (env : OrchEnv) (ctx : GenerationContext) (db : DB) (u : UserDoc) (url : String),
        Orchestrator.validateGenerationContext ctx db = Except.ok () →
        ¬ ctx.quotaInfo.remaining < env.calcCost →
        findUser db ctx.userId = some u →
        (env.freepik 0).submit = SubmitHttp.immediateUrl url →
        (env.freepik 0).upload = CloudUpload.failed →
        env.uploads 0 = UploadStep.failedOrSkipped →
        (Orchestrator.generateTextToImage env ctx db).result.success = true
        ∧ (Orchestrator.generateTextToImage env ctx db).result.images.map (fun d => d.url)
            = [some url]
        ∧ (Orchestrator.generateTextToImage env ctx db).result.images.map
            (fun d => d.processingError) = [none]) := by
  refine ⟨fun _ _ => rfl, processGeneratedImages_length, fun _ _ _ => rfl, ?_⟩
  intro env ctx db u url hval hq hu hsub hupF hupl0
  rw [generateTextToImage_validated env ctx db hval]
  have hu1 : findUser
      { db with records := db.records ++ [createGenerationRecord env ctx "text-to-image"] }
      ctx.userId = some u := hu
  rw [stageQuota_consume env ctx ctx _ _ _ _ u hq hu1]
  have hatt : ((fun i => FreepikImageService.textToImage (env.freepik i)) 0).result =
      Except.ok (FreepikImageService.finishWithUrl (env.freepik 0) url) := by
    show (FreepikImageService.textToImage (env.freepik 0)).result = _
    unfold FreepikImageService.textToImage
    rw [hsub]
  have hrr : (executeWithRetry (fun i => FreepikImageService.textToImage (env.freepik i))).result =
      Except.ok (FreepikImageService.finishWithUrl (env.freepik 0) url) := by
    have hfe : executeWithRetry (fun i => FreepikImageService.textToImage (env.freepik i)) =
        withRetry (fun i => FreepikImageService.textToImage (env.freepik i))
          baseRetryDelayMs 0 (2 + 1) := rfl
    rw [hfe, withRetry_ok _ _ _ _ _ hatt]
  rw [stageSubmit_ok_result env ctx _ _ _ _ _ _ hrr]
  have hcr : FreepikImageService.uploadToCloudinary url (env.freepik 0).nowMs (env.freepik 0).upload =
      { url := url, secureUrl := url, publicId := "freepik_" ++ toString (env.freepik 0).nowMs,
        format := "jpeg", width := 1024, height := 1024, bytes := 0 } := by
    rw [hupF]
    rfl
  refine ⟨rfl, ?_, ?_⟩ <;>
    simp [FreepikImageService.finishWithUrl, hcr, processGeneratedImages,
      List.mapIdx, List.mapIdx.go, Orchestrator.processOne, hupl0]

/-- C9: (amended, witness) The amended upload-degradation behavior
evaluated on the concrete upload-failing run. -/
theorem C9_witness :
    FreepikImageService.uploadToCloudinary "https://img.freepik.com/a.png" 7 CloudUpload.failed =
      { url := "https://img.freepik.com/a.png", secureUrl := "https://img.freepik.com/a.png",
        publicId := "freepik_" ++ toString 7, format := "jpeg",
        width := 1024, height := 1024, bytes := 0 }
    ∧ ((Orchestrator.generateTextToImage (mkEnv seUploadFail) (wCtx 10) wDB).result.success = true
      ∧ (Orchestrator.generateTextToImage (mkEnv seUploadFail) (wCtx 10) wDB).result.images.map
          (fun d => d.url) = [some "https://img.freepik.com/a.png"]
      ∧ (Orchestrator.generateTextToImage (mkEnv seUploadFail) (wCtx 10) wDB).result.images.map
          (fun d => d.processingError) = [none]) :=
  ⟨C9_amended.1 "https://img.freepik.com/a.png" 7,
    C9_amended.2.2.2 (mkEnv seUploadFail) (wCtx 10) wDB wUser "https://img.freepik.com/a.png"
      rfl (by decide) rfl rfl rfl rfl⟩

/-- C10: The quota-sufficiency decision reads only the remaining value of
the request context: without middleware the controller substitutes a
default of 10 remaining credits, middleware-provided quota info is used
verbatim, and for two databases holding the same user with any persisted
usages the reserve decision is identical. -/
theorem C10_quota_decision :
    (∀ uid tier req, (Controller.createContext uid tier req none).quotaInfo = { remaining := 10 })
    ∧ (∀ uid tier req q, (Controller.createContext uid tier req (some q)).quotaInfo = q)
    ∧ (∀ (ctx : GenerationContext) (g : GenRecord) (idx : Nat) (db db' : DB) (u u' : UserDoc),
        findUser db ctx.userId = some u → findUser db' ctx.userId = some u' →
        (Orchestrator.validateAndConsumeQuota ctx g idx db).fst.success
          = (Orchestrator.validateAndConsumeQuota ctx g idx db').fst.success) := by
  refine ⟨fun _ _ _ => rfl, fun _ _ _ _ => rfl, ?_⟩
  intro ctx g idx db db' u u' hu hu'
  unfold Orchestrator.validateAndConsumeQuota
  by_cases hq : ctx.quotaInfo.remaining < g.credits
  · rw [if_pos hq, if_pos hq]
  · rw [if_neg hq, if_neg hq, hu, hu']

/-- C10: (witness) The default quota info and the usage-independence of the
decision, evaluated for user u1 at persisted usages 0 and 999. -/
theorem C10_witness :
    (Controller.createContext "u1" Tier.free wReq none).quotaInfo = { remaining := 10 }
    ∧ (Orchestrator.validateAndConsumeQuota (wCtx 10) wPendingRecord 0 wDB).fst.success
        = (Orchestrator.validateAndConsumeQuota (wCtx 10) wPendingRecord 0 wDBRich).fst.success :=
  ⟨C10_quota_decision.1 "u1" Tier.free wReq,
    C10_quota_decision.2.2 (wCtx 10) wPendingRecord 0 wDB wDBRich wUser
      { monthlyUsage := 999, isActive := true, subscriptionTier := Tier.free } rfl rfl⟩

end Claims

end Artifex
